import Mathlib

/-!
# Device simulator (`device_sim/device.c`): protocol codec, command handlers, scheduler

A shallow embedding of the C program.

* C strings and datagrams are `List Char`; a buffer is read up to its first NUL.
* `double` values are exact rationals (`ℚ`): rounding, infinities and NaN are
  outside the model.
* `get_timestamp()` is the parameter `now` of the function that reads the clock.
* `sscanf(s, "%lf", &x)` is the parameter `scan`: `some x` when one number was
  converted, `none` otherwise.  `sscanf_lf` is a concrete instance for plain
  decimal literals.
* `sendto` calls are returned as a list of `(destination, payload)`.
* `format_reply` computes the text `vsprintf` writes; whether that text fits
  the fixed-size destination array is the separate predicate `response_fits`.
* Logging (`printf`, `fprintf(stderr, ..)`) has no effect on device state and is
  left out.
-/

namespace DeviceSim

/-! ## Constants and types -/

def MAXKVPAIRS : Nat := 4
def MAXREQSZ : Nat := 512
def MAXREPLYSZ : Nat := 256

/-- The C type `result_t`. -/
inductive result_t where
  | ERR
  | OK
  deriving DecidableEq, Repr

/-- The C type `command_t`; the numeric values matter to the `&` dispatch. -/
inductive command_t where
  | UNKNOWN
  | ID
  | TEST
  deriving DecidableEq, Repr

/-- Numeric value of a `command_t` enumerator. -/
def command_t.val : command_t → Nat
  | .UNKNOWN => 0
  | .ID => 1
  | .TEST => 2

/-- The C type `state_t`. -/
inductive state_t where
  | IDLE
  | RUNNING
  deriving DecidableEq, Repr

/-- The fields of `struct sockaddr_in` the program reads. -/
structure sockaddr_in where
  sin_port : Nat
  sin_addr : Nat
  deriving DecidableEq, Repr

/-- The C type `config_t` (the fields `mainloop_init` copies into the device). -/
structure config_t where
  verbosity : Int
  modelnum : List Char
  serialnum : List Char
  initial_dut_mv : ℚ
  initial_dut_ma : ℚ
  deterministic : Bool
  deriving DecidableEq

/-- The C type `test_t`. -/
structure test_t where
  t0 : ℚ
  duration_s : ℚ
  rate_ms : ℚ
  next_update_s : ℚ
  dut_mv : ℚ
  dut_ma : ℚ
  deriving DecidableEq

/-- The C type `app_t`. -/
structure app_t where
  verbosity : Int
  mcast_fd : Int
  fd : Int
  modelnum : List Char
  serialnum : List Char
  initial_dut_mv : ℚ
  initial_dut_ma : ℚ
  deterministic : Bool
  state : state_t
  test : test_t
  subscriber : sockaddr_in
  deriving DecidableEq

/-- The C type `request_t`: `args` holds `(argkeys[i], argvals[i])` for
`i < nargs`, so `nargs = args.length`. -/
structure request_t where
  cmd : command_t
  args : List (List Char × List Char)
  deriving DecidableEq, Repr

/-- The field `nargs` of `request_t`. -/
def request_t.nargs (req : request_t) : Nat := req.args.length

/-- The array read `req.argkeys[i]`.  The handlers read slots below `nargs`
only; for any other index the model gives the empty string. -/
def request_t.argkeys (req : request_t) (i : Nat) : List Char :=
  match req.args.get? i with
  | some p => p.1
  | none => []

/-- The array read `req.argvals[i]`.  The handlers read slots below `nargs`
only; for any other index the model gives the empty string. -/
def request_t.argvals (req : request_t) (i : Nat) : List Char :=
  match req.args.get? i with
  | some p => p.2
  | none => []

/-- One datagram handed to `sendto`: destination address and payload. -/
abbrev datagram_t := sockaddr_in × List Char

/-! ## Protocol codec -/

/-- The bytes of a C string held in `buf`: everything before the first NUL. -/
def cstr (buf : List Char) : List Char :=
  buf.takeWhile (fun c => c != Char.ofNat 0)

/-- One call of `strtok_r` on the text `s` with delimiter set `delim`:
skip leading delimiters; `none` when nothing is left; otherwise the token up to
the next delimiter and the saved position just past that delimiter. -/
def strtok_r (s : List Char) (delim : List Char) : Option (List Char × List Char) :=
  match s.dropWhile (fun c => delim.contains c) with
  | [] => none
  | c :: cs =>
    some ((c :: cs).takeWhile (fun d => !delim.contains d),
          ((c :: cs).dropWhile (fun d => !delim.contains d)).drop 1)

/-- The `while (1)` loop of `parse_command`: `savep` is the unread rest of the
buffer, `args` the pairs stored so far.  `none` is `return ERR`. -/
def parse_command_loop : Nat → List Char → List (List Char × List Char) →
    Option (List (List Char × List Char))
  | 0, _, args => some args
  | fuel + 1, savep, args =>
    match strtok_r savep [';'] with
    | none => some args
    | some (tok, savep1) =>
      if args.length ≥ MAXKVPAIRS then none
      else
        match strtok_r tok ['='] with
        | none => some args
        | some (key, save2p) =>
          match strtok_r save2p ['='] with
          | none => some args
          | some (val, _) => parse_command_loop fuel savep1 (args ++ [(key, val)])

/-- The function `parse_command`: `none` is `ERR`, `some req` is `OK` with the
request filled in.  Each loop iteration consumes at least one byte, so the
fuel `buf.length + 1` is never exhausted. -/
def parse_command (buf : List Char) : Option request_t :=
  match strtok_r (cstr buf) [';'] with
  | none => none
  | some (tok, savep) =>
    if tok = "ID".toList then
      (parse_command_loop (buf.length + 1) savep []).map (fun a => ⟨.ID, a⟩)
    else if tok = "TEST".toList then
      (parse_command_loop (buf.length + 1) savep []).map (fun a => ⟨.TEST, a⟩)
    else some ⟨.UNKNOWN, []⟩

/-- The function `format_reply`: `text` is what `vsprintf` renders from the
format and its arguments; the result is always `OK`. -/
def format_reply (text : List Char) : result_t × List Char :=
  (.OK, text)

/-- The destination of `format_reply`: `vsprintf` stores the text and its
terminating NUL in the caller's array `char response[MAXREPLYSZ]` and has no
bound of its own.  The array holds them when the text is shorter than
`MAXREPLYSZ`; a longer text is written past the end of the array, where the
behaviour of the program is undefined. -/
def response_fits (text : List Char) : Prop :=
  text.length + 1 ≤ MAXREPLYSZ

/-- Rounding of a non-negative rational to the nearest natural number, a tie
going to the even neighbour (the rounding `printf` applies to the last digit). -/
def round_half_even (x : ℚ) : Nat :=
  let f := (Rat.floor x).toNat
  let r := x - f
  if r < 1 / 2 then f
  else if 1 / 2 < r then f + 1
  else if f % 2 = 0 then f else f + 1

/-- The `printf` conversion `%.<prec>lf` of a rational. -/
def fmt_lf (prec : Nat) (x : ℚ) : List Char :=
  let n := round_half_even (|x| * (10 : ℚ) ^ prec)
  let frac := (Nat.repr (n % 10 ^ prec)).toList
  (if x < 0 then ['-'] else []) ++ (Nat.repr (n / 10 ^ prec)).toList ++
    (if prec = 0 then [] else '.' :: (List.replicate (prec - frac.length) '0' ++ frac))

/-- The macro `STATUS_FORMAT`, rendered:
`"STATUS;TIME=%.0lf;MV=%.1lf;MA=%.1lf;"`. -/
def STATUS_FORMAT (time_ms mv ma : ℚ) : List Char :=
  "STATUS;TIME=".toList ++ fmt_lf 0 time_ms ++ ";MV=".toList ++ fmt_lf 1 mv ++
    ";MA=".toList ++ fmt_lf 1 ma ++ ";".toList

/-- The function `send_message`: the datagram goes to the stored subscriber,
and only when its port is not zero. -/
def send_message (app : app_t) (buf : List Char) : List datagram_t :=
  if app.subscriber.sin_port ≠ 0 then [(app.subscriber, buf)] else []

/-! ## Command handlers -/

/-- The function `handle_ID`. -/
def handle_ID (app : app_t) (req : request_t) : app_t × result_t × List Char :=
  if req.nargs = 0 then
    (app, format_reply ("ID;MODEL=".toList ++ app.modelnum ++ ";SERIAL=".toList ++
      app.serialnum ++ ";".toList))
  else
    (app, format_reply "ERR;REASON=Unexpected argument to ID;".toList)

/-- The body of the `for` loop of `handle_TEST_START` at index `i`, on the
locals `(duration, rate)`: `.error` is an early `return` with that reply. -/
def handle_TEST_START_arg (scan : List Char → Option ℚ) (req : request_t) (i : Nat)
    (dr : ℚ × ℚ) : Except (List Char) (ℚ × ℚ) :=
  if req.argkeys i = "DURATION".toList then
    match scan (req.argvals i) with
    | some d => .ok (d, dr.2)
    | none => .error "TEST;RESULT=ERROR;MSG=Could not parse DURATION;".toList
  else if req.argkeys i = "RATE".toList then
    match scan (req.argvals i) with
    | some r => .ok (dr.1, r)
    | none => .error "TEST;RESULT=ERROR;MSG=Could not parse RATE;".toList
  else .ok dr

/-- The function `handle_TEST_START`. -/
def handle_TEST_START (scan : List Char → Option ℚ) (now : ℚ) (app : app_t)
    (req : request_t) : app_t × result_t × List Char :=
  if req.nargs ≠ 3 then
    (app, format_reply
      "TEST;RESULT=ERROR;MSG=\"CMD=START\" expects DURATION and RATE;".toList)
  else
    match (handle_TEST_START_arg scan req 1 (0, 0)).bind (handle_TEST_START_arg scan req 2) with
    | .error reply => (app, format_reply reply)
    | .ok (duration, rate) =>
      if duration = 0 ∨ rate = 0 then
        (app, format_reply "TEST;RESULT=ERROR;MSG=Expected duration>0 and rate>0;".toList)
      else if app.state = .IDLE then
        ({ app with
            state := .RUNNING
            test :=
              { t0 := now
                duration_s := duration
                next_update_s := now + rate / 1000
                rate_ms := rate
                dut_ma := app.initial_dut_ma
                dut_mv := app.initial_dut_mv } },
          format_reply "TEST;RESULT=STARTED;".toList)
      else
        (app, format_reply "TEST;RESULT=ERROR;MSG=Already running;".toList)

/-- The function `handle_TEST_STOP`. -/
def handle_TEST_STOP (app : app_t) (_req : request_t) : app_t × result_t × List Char :=
  if app.state = .RUNNING then
    ({ app with
        state := .IDLE
        test :=
          { t0 := 0, duration_s := 0, next_update_s := 0, rate_ms := 0, dut_ma := 0,
            dut_mv := 0 } },
      format_reply "TEST;RESULT=STOPPED;".toList)
  else
    (app, format_reply "TEST;RESULT=ERROR;MSG=No test was running;".toList)

/-- The function `handle_TEST`. -/
def handle_TEST (scan : List Char → Option ℚ) (now : ℚ) (app : app_t)
    (req : request_t) : app_t × result_t × List Char :=
  if req.nargs < 1 then
    (app, format_reply "ERR;REASON=Missing CMD argument to TEST;".toList)
  else
    let subcmd := req.argvals 0
    if req.argkeys 0 ≠ "CMD".toList then
      (app, format_reply "ERR;REASON=Expected first argument to be CMD;".toList)
    else if subcmd = "START".toList then
      handle_TEST_START scan now app req
    else if subcmd = "STOP".toList then
      handle_TEST_STOP app req
    else
      (app, format_reply "ERR;REASON=Unknown CMD expected START or STOP;".toList)

/-- The function `update_subscribers`: the sender becomes the subscriber; the
return value is always `0`. -/
def update_subscribers (app : app_t) (raddr : sockaddr_in) : app_t × Int :=
  ({ app with subscriber := raddr }, 0)

/-- The `switch (cmd.cmd & supported_commands)` of `handle_message`. -/
def handle_message_switch (scan : List Char → Option ℚ) (now : ℚ) (app : app_t)
    (cmd : request_t) (supported_commands : Nat) : app_t × result_t × List Char :=
  match cmd.cmd.val &&& supported_commands with
  | 1 => handle_ID app cmd
  | 2 => handle_TEST scan now app cmd
  | _ => (app, format_reply "ERR;REASON=Bad message format;".toList)

/-- The function `handle_message`, on the `n` received bytes `buf` from
`raddr`; the terminator written by `buf[n] = 0` is the end of the list.  The
result is the device afterwards, the return value, and the datagrams handed to
`sendto` (the reply goes to `raddr`). -/
def handle_message (scan : List Char → Option ℚ) (now : ℚ) (app : app_t)
    (raddr : sockaddr_in) (buf : List Char) (supported_commands : Nat) :
    app_t × result_t × List datagram_t :=
  let upd := update_subscribers app raddr
  if upd.2 < 0 then (upd.1, .ERR, [])
  else
    match parse_command buf with
    | none => (upd.1, .ERR, [])
    | some cmd =>
      let r := handle_message_switch scan now upd.1 cmd supported_commands
      if r.2.1 = .OK then (r.1, .OK, [(raddr, r.2.2)]) else (r.1, .OK, [])

/-! ## Event loop and telemetry scheduler -/

/-- The function `mainloop_init` once both sockets are bound: `memset` to
zero, then the configuration is copied in. -/
def mainloop_init (cfg : config_t) (mcast_fd fd : Int) : app_t :=
  { verbosity := cfg.verbosity
    mcast_fd := mcast_fd
    fd := fd
    modelnum := cfg.modelnum
    serialnum := cfg.serialnum
    initial_dut_mv := cfg.initial_dut_mv
    initial_dut_ma := cfg.initial_dut_ma
    deterministic := cfg.deterministic
    state := .IDLE
    test := { t0 := 0, duration_s := 0, rate_ms := 0, next_update_s := 0, dut_mv := 0, dut_ma := 0 }
    subscriber := { sin_port := 0, sin_addr := 0 } }

/-- The conversion `(int)x` of a `double`: truncation toward zero.  Outside the
range of `int` the C result is undefined; the value taken here is the one the
x86-64 conversion instruction gives, `INT_MIN`. -/
def double_to_int (x : ℚ) : Int :=
  let t := Int.tdiv x.num x.den
  if -2147483648 ≤ t ∧ t ≤ 2147483647 then t else -2147483648

/-- The jitter of `mainloop_run` (the block `if (!app->deterministic)`):
voltage and current move by an amount taken from the sub-second part of the
elapsed time `delta_t`. -/
def mainloop_run_jitter (delta_t : ℚ) (app : app_t) : app_t :=
  if !app.deterministic then
    let subsecond_part : ℚ :=
      ((Int.tmod (double_to_int (delta_t * 1000000)) 1000000 : Int) : ℚ) / 1000000
    { app with
        test :=
          { app.test with
              dut_mv := app.test.dut_mv + 56.789 * (subsecond_part - 0.5)
              dut_ma := app.test.dut_ma + 123.45 * (subsecond_part - 0.5) } }
  else app

/-- The status update of `mainloop_run` (the body of
`if (now > app->test.next_update_s)`): jitter, one status message to the
subscriber, and the next deadline.  The sum `next_update_s + rate_ms / 1000`
is the exact rational here; the source rounds the quotient and the sum to
`double`, so after several updates its deadline can differ from this one in
the last place. -/
def mainloop_run_status (now delta_t : ℚ) (app : app_t) : app_t × List datagram_t :=
  let time_ms := delta_t * 1000
  let app1 := mainloop_run_jitter delta_t app
  let response := (format_reply (STATUS_FORMAT time_ms app1.test.dut_mv app1.test.dut_ma)).2
  let sent := send_message app1 response
  let app2 : app_t :=
    if app1.test.next_update_s = 0 then
      { app1 with test := { app1.test with next_update_s := now } }
    else app1
  ({ app2 with
      test :=
        { app2.test with next_update_s := app2.test.next_update_s + app2.test.rate_ms / 1000 } },
    sent)

/-- The block `// process outgoing messages` of `mainloop_run` (the scheduler
tick) at clock reading `now`: the device afterwards, the value of `ok`, and the
datagrams sent through `send_message`. -/
def mainloop_run_outgoing (now : ℚ) (app : app_t) : app_t × result_t × List datagram_t :=
  if app.state = .RUNNING then
    let delta_t : ℚ := if now - app.test.t0 < 0 then 0 else now - app.test.t0
    let upd : app_t × List datagram_t :=
      if now > app.test.next_update_s then mainloop_run_status now delta_t app else (app, [])
    if delta_t > upd.1.test.duration_s then
      let app3 : app_t := { upd.1 with state := .IDLE }
      (app3, (format_reply "STATUS;STATE=IDLE;".toList).1,
        upd.2 ++ send_message app3 (format_reply "STATUS;STATE=IDLE;".toList).2)
    else (upd.1, .OK, upd.2)
  else (app, .OK, [])

/-- One datagram delivered by `recvfrom`: the sender, the bytes, and the clock
reading the handler gets if it asks for the time. -/
structure rx_t where
  addr : sockaddr_in
  buf : List Char
  now : ℚ
  deriving DecidableEq

/-- The commands `mainloop_run` allows on a socket: `ID` on the multicast
socket, `ID | TEST` on the unicast one. -/
def supported_commands (mcast : Bool) : Nat :=
  if mcast then command_t.ID.val else command_t.ID.val ||| command_t.TEST.val

/-- The body of the receive loop of `mainloop_run` for one socket: `none` when
the socket has nothing to read or `recvfrom` failed. -/
def mainloop_run_rx (scan : List Char → Option ℚ) (app : app_t) (mcast : Bool) :
    Option rx_t → app_t × List datagram_t
  | none => (app, [])
  | some r =>
    let h := handle_message scan r.now app r.addr r.buf (supported_commands mcast)
    (h.1, h.2.2)

/-- The function `mainloop_run`: `poll_ok = false` is a failed `poll`;
`rx_mcast` and `rx` are what the two sockets deliver; `now` is the clock
reading of the scheduler tick. -/
def mainloop_run (scan : List Char → Option ℚ) (poll_ok : Bool) (rx_mcast rx : Option rx_t)
    (now : ℚ) (app : app_t) : app_t × result_t × List datagram_t :=
  if !poll_ok then (app, .ERR, [])
  else
    let a := mainloop_run_rx scan app true rx_mcast
    let b := mainloop_run_rx scan a.1 false rx
    let c := mainloop_run_outgoing now b.1
    (c.1, c.2.1, a.2 ++ b.2 ++ c.2.2)

/-- What happens to the device, one at a time: a datagram handled on one of the
two sockets, or a scheduler tick. -/
inductive event_t where
  | rx (mcast : Bool) (r : rx_t)
  | tick (now : ℚ)
  deriving DecidableEq

/-- The device after one event and the datagrams the event sent. -/
def step (scan : List Char → Option ℚ) (app : app_t) : event_t → app_t × List datagram_t
  | .rx mcast r => mainloop_run_rx scan app mcast (some r)
  | .tick now => ((mainloop_run_outgoing now app).1, (mainloop_run_outgoing now app).2.2)

/-- The device after a sequence of events. -/
def final (scan : List Char → Option ℚ) (app : app_t) : List event_t → app_t
  | [] => app
  | e :: es => final scan (step scan app e).1 es

/-- The events of a sequence, each with the datagrams it sent. -/
def trace (scan : List Char → Option ℚ) (app : app_t) :
    List event_t → List (event_t × List datagram_t)
  | [] => []
  | e :: es => (e, (step scan app e).2) :: trace scan (step scan app e).1 es

/-! ## A concrete number scanner -/

/-- Value of a run of decimal digits. -/
def digits_val (ds : List Char) : Nat :=
  ds.foldl (fun n c => 10 * n + (c.toNat - 48)) 0

/-- The lexical part of scanning a decimal literal: blanks, an optional sign,
digits with an optional fraction.  The result is the sign, the value of all
digits read, and the number of fraction digits; `none` when no digit is found. -/
def scan_decimal (s : List Char) : Option (Bool × Nat × Nat) :=
  let s1 := s.dropWhile Char.isWhitespace
  let neg := s1.head? = some '-'
  let s2 := match s1 with
    | '-' :: t => t
    | '+' :: t => t
    | _ => s1
  let ip := s2.takeWhile Char.isDigit
  let fp := match s2.dropWhile Char.isDigit with
    | '.' :: t => t.takeWhile Char.isDigit
    | _ => []
  if ip = [] ∧ fp = [] then none
  else some (neg, digits_val (ip ++ fp), fp.length)

/-- An instance of `sscanf(s, "%lf", &x)` for plain decimal literals: blanks,
a sign, digits and a fraction.  Exponents, hexadecimal literals, `inf` and
`nan`, which `%lf` also accepts, are not read here. -/
def sscanf_lf (s : List Char) : Option ℚ :=
  match scan_decimal s with
  | none => none
  | some (neg, m, k) =>
    some (if neg then -((m : ℚ) / (10 : ℚ) ^ k) else (m : ℚ) / (10 : ℚ) ^ k)

/-! ## Example inputs -/

/-- The default configuration of `init_defaults`, with the deterministic flag set. -/
def demo_cfg : config_t :=
  { verbosity := 0
    modelnum := "M001".toList
    serialnum := "SN0123456".toList
    initial_dut_mv := 4500
    initial_dut_ma := 100
    deterministic := true }

/-- A freshly initialised device. -/
def demo_idle : app_t := mainloop_init demo_cfg 3 4

/-- A client address. -/
def demo_client : sockaddr_in := { sin_port := 50000, sin_addr := 2130706433 }

/-- A device in the middle of a session: started at time 10, one second long,
an update every 100 ms. -/
def demo_running : app_t :=
  { demo_idle with
      state := .RUNNING
      test :=
        { t0 := 10, duration_s := 1, rate_ms := 100, next_update_s := 10 + 100 / 1000,
          dut_mv := 4500, dut_ma := 100 }
      subscriber := demo_client }

/-- The request `TEST;CMD=START;DURATION=1;RATE=100;` as parsed. -/
def demo_start : request_t :=
  { cmd := .TEST
    args := [("CMD".toList, "START".toList), ("DURATION".toList, "1".toList),
      ("RATE".toList, "100".toList)] }

/-- The request `TEST;CMD=STOP;` as parsed. -/
def demo_stop : request_t :=
  { cmd := .TEST, args := [("CMD".toList, "STOP".toList)] }

/-! ## Outcomes of the command handlers -/

/-- The three things a handler can do to the device: leave it alone, start a
session from `IDLE`, or stop a `RUNNING` session. -/
inductive outcome (app : app_t) (now : ℚ) : app_t × result_t × List Char → Prop where
  | same (msg : List Char) : outcome app now (app, .OK, msg)
  | started (d r : ℚ) (hidle : app.state = .IDLE) (hd : d ≠ 0) (hr : r ≠ 0) :
      outcome app now
        ({ app with
            state := .RUNNING
            test :=
              { t0 := now, duration_s := d, next_update_s := now + r / 1000, rate_ms := r,
                dut_ma := app.initial_dut_ma, dut_mv := app.initial_dut_mv } },
          .OK, "TEST;RESULT=STARTED;".toList)
  | stopped (hrun : app.state = .RUNNING) :
      outcome app now
        ({ app with
            state := .IDLE
            test :=
              { t0 := 0, duration_s := 0, next_update_s := 0, rate_ms := 0, dut_ma := 0,
                dut_mv := 0 } },
          .OK, "TEST;RESULT=STOPPED;".toList)

/-! ## Datagrams of the grammar `COMMAND;[KEY=VALUE;]*` -/

/-- A key or value as the grammar has it: not empty, and free of `;`, `=` and NUL. -/
def wf_field (s : List Char) : Prop :=
  s ≠ [] ∧ ';' ∉ s ∧ '=' ∉ s ∧ Char.ofNat 0 ∉ s

/-- A command token: not empty, and free of `;` and NUL. -/
def wf_name (s : List Char) : Prop :=
  s ≠ [] ∧ ';' ∉ s ∧ Char.ofNat 0 ∉ s

/-- The text `k1=v1;...;kn=vn;` of a list of pairs. -/
def render_args : List (List Char × List Char) → List Char
  | [] => []
  | p :: ps => p.1 ++ '=' :: (p.2 ++ ';' :: render_args ps)

/-- The datagram `name;k1=v1;...;kn=vn;`. -/
def render_request (name : List Char) (ps : List (List Char × List Char)) : List Char :=
  name ++ ';' :: render_args ps

/-- The key/value split of one argument token, as the loop of `parse_command`
does it: two `strtok_r` calls with the delimiter `=`; `none` when the key or
the value is missing (the loop then stops). -/
def split_pair (tok : List Char) : Option (List Char × List Char) :=
  match strtok_r tok ['='] with
  | none => none
  | some (key, save2p) =>
    match strtok_r save2p ['='] with
    | none => none
    | some (val, _) => some (key, val)

/-- The successive tokens repeated `strtok_r` calls yield on the text `s`. -/
def strtok_tokens : Nat → List Char → List Char → List (List Char)
  | 0, _, _ => []
  | fuel + 1, s, delim =>
    match strtok_r s delim with
    | none => []
    | some (tok, rest) => tok :: strtok_tokens fuel rest delim

/-- The `;`-separated tokens of a received buffer, in order; the fuel exceeds
the length of the text, so no token is left out. -/
def datagram_tokens (buf : List Char) : List (List Char) :=
  strtok_tokens (buf.length + 1) (cstr buf) [';']

/-- The loop of `parse_command` over the list of argument tokens. -/
def parse_tokens : List (List Char) → List (List Char × List Char) →
    Option (List (List Char × List Char))
  | [], args => some args
  | tok :: toks, args =>
    if args.length ≥ MAXKVPAIRS then none
    else
      match split_pair tok with
      | none => some args
      | some p => parse_tokens toks (args ++ [p])

/-! ## More example inputs -/

/-- A device configured with a model string of 300 characters (option `-M`). -/
def demo_long_model : app_t :=
  { demo_idle with modelnum := List.replicate 300 'A' }

/-- A non-deterministic device in a session of 3000 seconds started at time 0,
with its next update due at time 2199. -/
def demo_long_session : app_t :=
  { demo_idle with
      deterministic := false
      state := .RUNNING
      test :=
        { t0 := 0, duration_s := 3000, rate_ms := 1000, next_update_s := 2199, dut_mv := 4500,
          dut_ma := 100 }
      subscriber := demo_client }

/-- Three pairs, two of them with the same key. -/
def demo_pairs_dup : List (List Char × List Char) :=
  [("CMD".toList, "START".toList), ("DURATION".toList, "1".toList),
    ("DURATION".toList, "2".toList)]

/-- The request `TEST;CMD=START;DURATION=abc;RATE=100;` as parsed. -/
def demo_start_bad : request_t :=
  { cmd := .TEST
    args := [("CMD".toList, "START".toList), ("DURATION".toList, "abc".toList),
      ("RATE".toList, "100".toList)] }

/-- The request `TEST;CMD=START;DURATION=0;RATE=100;` as parsed. -/
def demo_start_zero : request_t :=
  { cmd := .TEST
    args := [("CMD".toList, "START".toList), ("DURATION".toList, "0".toList),
      ("RATE".toList, "100".toList)] }

/-! ## Facts about the example inputs -/

/-- The scanner reads `1` as 1. -/
theorem sscanf_lf_one : sscanf_lf "1".toList = some 1 := by
  rw [sscanf_lf, show scan_decimal "1".toList = some (false, 1, 0) from by decide]
  norm_num

/-- The scanner reads `100` as 100. -/
theorem sscanf_lf_hundred : sscanf_lf "100".toList = some 100 := by
  rw [sscanf_lf, show scan_decimal "100".toList = some (false, 100, 0) from by decide]
  norm_num

/-! ## Outcomes of the handlers: lemmas -/

/-- The function `handle_ID` never changes the device. -/
theorem handle_ID_outcome (now : ℚ) (app : app_t) (req : request_t) :
    outcome app now (handle_ID app req) := by
  unfold handle_ID format_reply
  split <;> exact .same _

/-- The function `handle_TEST_START` starts a session from `IDLE` or leaves
the device alone. -/
theorem handle_TEST_START_outcome (scan : List Char → Option ℚ) (now : ℚ) (app : app_t)
    (req : request_t) : outcome app now (handle_TEST_START scan now app req) := by
  unfold handle_TEST_START format_reply
  split
  · exact .same _
  · split
    · exact .same _
    · rename_i duration rate _
      by_cases hz : duration = 0 ∨ rate = 0
      · rw [if_pos hz]
        exact .same _
      · rw [if_neg hz]
        by_cases hs : app.state = .IDLE
        · rw [if_pos hs]
          exact .started duration rate hs (fun h => hz (Or.inl h)) (fun h => hz (Or.inr h))
        · rw [if_neg hs]
          exact .same _

/-- The function `handle_TEST_STOP` stops a `RUNNING` session or leaves the
device alone. -/
theorem handle_TEST_STOP_outcome (now : ℚ) (app : app_t) (req : request_t) :
    outcome app now (handle_TEST_STOP app req) := by
  unfold handle_TEST_STOP format_reply
  by_cases hs : app.state = .RUNNING
  · rw [if_pos hs]
    exact .stopped hs
  · rw [if_neg hs]
    exact .same _

/-- The function `handle_TEST` has one of the three outcomes. -/
theorem handle_TEST_outcome (scan : List Char → Option ℚ) (now : ℚ) (app : app_t)
    (req : request_t) : outcome app now (handle_TEST scan now app req) := by
  unfold handle_TEST format_reply
  split
  · exact .same _
  · dsimp only
    split
    · exact .same _
    · split
      · exact handle_TEST_START_outcome scan now app req
      · split
        · exact handle_TEST_STOP_outcome now app req
        · exact .same _

/-- The dispatch of `handle_message` has one of the three outcomes. -/
theorem handle_message_switch_outcome (scan : List Char → Option ℚ) (now : ℚ) (app : app_t)
    (cmd : request_t) (sup : Nat) :
    outcome app now (handle_message_switch scan now app cmd sup) := by
  unfold handle_message_switch format_reply
  split
  · exact handle_ID_outcome now app cmd
  · exact handle_TEST_outcome scan now app cmd
  · exact .same _

/-- Every outcome returns `OK`. -/
theorem outcome_ok {app : app_t} {now : ℚ} {r : app_t × result_t × List Char}
    (h : outcome app now r) : r.2.1 = .OK := by
  cases h <;> rfl

/-- What `handle_message` does when `parse_command` fails. -/
theorem handle_message_parse_none (scan : List Char → Option ℚ) (now : ℚ) (app : app_t)
    (raddr : sockaddr_in) (buf : List Char) (sup : Nat) (hparse : parse_command buf = none) :
    handle_message scan now app raddr buf sup = ({ app with subscriber := raddr }, .ERR, []) := by
  unfold handle_message update_subscribers
  simp only [lt_self_iff_false, if_false, hparse]

/-- What `handle_message` does when `parse_command` succeeds. -/
theorem handle_message_parse_some (scan : List Char → Option ℚ) (now : ℚ) (app : app_t)
    (raddr : sockaddr_in) (buf : List Char) (sup : Nat) (cmd : request_t)
    (hparse : parse_command buf = some cmd) :
    handle_message scan now app raddr buf sup =
      ((handle_message_switch scan now { app with subscriber := raddr } cmd sup).1, .OK,
        [(raddr, (handle_message_switch scan now { app with subscriber := raddr } cmd sup).2.2)]) := by
  unfold handle_message update_subscribers
  simp only [lt_self_iff_false, if_false, hparse]
  rw [if_pos (outcome_ok (handle_message_switch_outcome scan now _ cmd sup))]

/-! ## `strtok_r` and `parse_command` on well-formed datagrams -/

/-- The call `strtok_r` on a non-empty token followed by its delimiter returns
the token and the text after the delimiter. -/
theorem strtok_r_token (tok rest : List Char) (d : Char) (hne : tok ≠ []) (hd : d ∉ tok) :
    strtok_r (tok ++ d :: rest) [d] = some (tok, rest) := by
  cases tok with
  | nil => exact absurd rfl hne
  | cons c cs =>
    have hc : c ≠ d := fun h => hd (h ▸ List.mem_cons_self _ _)
    have hall : ∀ a ∈ c :: cs, (!([d].contains a)) = true := by
      intro a ha
      have : a ≠ d := fun h => hd (h ▸ ha)
      simp [this]
    have h1 : List.dropWhile (fun x => [d].contains x) ((c :: cs) ++ d :: rest) =
        (c :: cs) ++ d :: rest := by
      simp [List.dropWhile_cons, hc]
    unfold strtok_r
    rw [h1]
    show some (List.takeWhile (fun x => !([d].contains x)) ((c :: cs) ++ d :: rest),
      (List.dropWhile (fun x => !([d].contains x)) ((c :: cs) ++ d :: rest)).drop 1) = _
    rw [List.takeWhile_append_of_pos hall, List.dropWhile_append_of_pos hall]
    simp

/-- The call `strtok_r` on a non-empty token with no delimiter after it returns
the token and leaves nothing to read. -/
theorem strtok_r_last (tok : List Char) (d : Char) (hne : tok ≠ []) (hd : d ∉ tok) :
    strtok_r tok [d] = some (tok, []) := by
  cases tok with
  | nil => exact absurd rfl hne
  | cons c cs =>
    have hc : c ≠ d := fun h => hd (h ▸ List.mem_cons_self _ _)
    have hall : ∀ a ∈ c :: cs, (!([d].contains a)) = true := by
      intro a ha
      have : a ≠ d := fun h => hd (h ▸ ha)
      simp [this]
    have h1 : List.dropWhile (fun x => [d].contains x) (c :: cs) = c :: cs := by
      simp [List.dropWhile_cons, hc]
    unfold strtok_r
    rw [h1]
    show some (List.takeWhile (fun x => !([d].contains x)) (c :: cs),
      (List.dropWhile (fun x => !([d].contains x)) (c :: cs)).drop 1) = _
    rw [List.takeWhile_eq_self_iff.mpr hall, List.dropWhile_eq_nil_iff.mpr hall]
    rfl

/-- A successful `strtok_r` call leaves strictly less text to read. -/
theorem strtok_r_rest_length (s delim tok rest : List Char)
    (h : strtok_r s delim = some (tok, rest)) : rest.length < s.length := by
  unfold strtok_r at h
  split at h
  · cases h
  · rename_i c cs hdrop
    have hlen : (c :: cs).length ≤ s.length := by
      rw [← hdrop]
      exact (List.dropWhile_sublist _).length_le
    have hc : delim.contains c = false := by
      have := List.head?_dropWhile_not (fun x => delim.contains x) s
      rw [hdrop] at this
      simpa using this
    simp only [Option.some.injEq, Prod.mk.injEq] at h
    rw [← h.2, List.dropWhile_cons_of_pos (by rw [hc]; rfl)]
    have h2 : ((List.dropWhile (fun d => !delim.contains d) cs).drop 1).length ≤ cs.length := by
      rw [List.length_drop]
      exact le_trans (Nat.sub_le _ _) (List.dropWhile_sublist _).length_le
    simp only [List.length_cons] at hlen
    omega

/-- The loop of `parse_command` does not depend on the fuel once the fuel
exceeds the length of the text still to read. -/
theorem parse_command_loop_fuel (n : Nat) :
    ∀ (f1 f2 : Nat) (savep : List Char) (args : List (List Char × List Char)),
      savep.length ≤ n → savep.length < f1 → savep.length < f2 →
      parse_command_loop f1 savep args = parse_command_loop f2 savep args := by
  induction n with
  | zero =>
    intro f1 f2 savep args hn h1 h2
    have hnil : savep = [] := List.length_eq_zero.mp (Nat.le_zero.mp hn)
    subst hnil
    cases f1 with
    | zero => exact absurd h1 (Nat.lt_irrefl _)
    | succ g1 =>
      cases f2 with
      | zero => exact absurd h2 (Nat.lt_irrefl _)
      | succ g2 => simp [parse_command_loop, strtok_r]
  | succ n ih =>
    intro f1 f2 savep args hn h1 h2
    cases f1 with
    | zero => exact absurd h1 (Nat.not_lt_zero _)
    | succ g1 =>
      cases f2 with
      | zero => exact absurd h2 (Nat.not_lt_zero _)
      | succ g2 =>
        rw [parse_command_loop, parse_command_loop]
        cases hs : strtok_r savep [';'] with
        | none => rfl
        | some tr =>
          obtain ⟨tok, rest⟩ := tr
          have hr := strtok_r_rest_length savep [';'] tok rest hs
          simp only
          split
          · rfl
          · split
            · rfl
            · split
              · rfl
              · exact ih g1 g2 rest _ (by omega) (by omega) (by omega)

/-- The text of a list of pairs has at least as many bytes as pairs. -/
theorem render_args_length (ps : List (List Char × List Char)) :
    ps.length ≤ (render_args ps).length := by
  induction ps with
  | nil => simp
  | cons p ps ih =>
    simp only [render_args, List.length_cons, List.length_append]
    omega

/-- The text of well-formed pairs holds no NUL. -/
theorem render_args_no_nul (ps : List (List Char × List Char))
    (hwf : ∀ p ∈ ps, wf_field p.1 ∧ wf_field p.2) : Char.ofNat 0 ∉ render_args ps := by
  induction ps with
  | nil => simp [render_args]
  | cons p ps ih =>
    have hp := hwf p (List.mem_cons_self _ _)
    have ih1 := ih (fun q hq => hwf q (List.mem_cons_of_mem _ hq))
    have h1 : Char.ofNat 0 ≠ '=' := by decide
    have h2 : Char.ofNat 0 ≠ ';' := by decide
    simp only [render_args, List.mem_append, List.mem_cons, not_or]
    exact ⟨hp.1.2.2.2, h1, hp.2.2.2.2, h2, ih1⟩

/-- The loop of `parse_command` on the text of well-formed pairs: the pairs
are appended in order as long as the total stays within `MAXKVPAIRS`, and the
loop fails otherwise. -/
theorem parse_command_loop_render (ps : List (List Char × List Char))
    (hwf : ∀ p ∈ ps, wf_field p.1 ∧ wf_field p.2) :
    ∀ (fuel : Nat) (acc : List (List Char × List Char)), ps.length < fuel →
      acc.length ≤ MAXKVPAIRS →
      parse_command_loop fuel (render_args ps) acc =
        if acc.length + ps.length ≤ MAXKVPAIRS then some (acc ++ ps) else none := by
  induction ps with
  | nil =>
    intro fuel acc hf hacc
    cases fuel with
    | zero => exact absurd hf (Nat.lt_irrefl _)
    | succ f => simp [parse_command_loop, render_args, strtok_r, hacc]
  | cons p ps ih =>
    intro fuel acc hf hacc
    cases fuel with
    | zero => exact absurd hf (Nat.not_lt_zero _)
    | succ f =>
      have hp := hwf p (List.mem_cons_self _ _)
      have hrest := ih (fun q hq => hwf q (List.mem_cons_of_mem _ hq)) f (acc ++ [p])
        (Nat.lt_of_succ_lt_succ hf)
      have htok : strtok_r (render_args (p :: ps)) [';'] =
          some (p.1 ++ '=' :: p.2, render_args ps) := by
        have hsplit : render_args (p :: ps) = (p.1 ++ '=' :: p.2) ++ ';' :: render_args ps := by
          simp [render_args]
        rw [hsplit]
        apply strtok_r_token
        · simp
        · have h3 : ';' ≠ '=' := by decide
          simp only [List.mem_append, List.mem_cons, not_or]
          exact ⟨hp.1.2.1, h3, hp.2.2.1⟩
      have hkey : strtok_r (p.1 ++ '=' :: p.2) ['='] = some (p.1, p.2) :=
        strtok_r_token p.1 p.2 '=' hp.1.1 hp.1.2.2.1
      have hval : strtok_r p.2 ['='] = some (p.2, []) :=
        strtok_r_last p.2 '=' hp.2.1 hp.2.2.2.1
      rw [parse_command_loop, htok]
      simp only [hkey, hval]
      by_cases hfull : acc.length ≥ MAXKVPAIRS
      · have hgt : ¬(acc.length + (p :: ps).length ≤ MAXKVPAIRS) := by
          simp only [List.length_cons]
          omega
        rw [if_pos hfull, if_neg hgt]
      · rw [if_neg hfull, hrest (by simp only [List.length_append, List.length_singleton]; omega)]
        simp only [List.length_append, List.length_singleton, List.length_cons,
          List.append_assoc, List.singleton_append]
        have harith : acc.length + (([] : List (List Char × List Char)).length + 1) +
            ps.length = acc.length + (ps.length + 1) := by
          simp only [List.length_nil]
          omega
        rw [harith]

/-- `parse_command` on a datagram of the grammar `COMMAND;[KEY=VALUE;]*` whose
command is `ID` or `TEST`: it returns the pairs in order when there are at
most `MAXKVPAIRS` of them, and fails otherwise. -/
theorem parse_command_render (name : List Char) (cmd : command_t)
    (ps : List (List Char × List Char))
    (hname : (name = "ID".toList ∧ cmd = .ID) ∨ (name = "TEST".toList ∧ cmd = .TEST))
    (hwf : ∀ p ∈ ps, wf_field p.1 ∧ wf_field p.2) :
    parse_command (render_request name ps) =
      if ps.length ≤ MAXKVPAIRS then some ⟨cmd, ps⟩ else none := by
  have hwfn : wf_name name := by
    rcases hname with h | h <;> rw [h.1] <;> unfold wf_name <;> decide
  have hnul : ∀ a ∈ render_request name ps, (a != Char.ofNat 0) = true := by
    intro a ha
    have hne : a ≠ Char.ofNat 0 := by
      intro h
      rw [h] at ha
      simp only [render_request, List.mem_append, List.mem_cons] at ha
      have h2 : Char.ofNat 0 ≠ ';' := by decide
      rcases ha with ha | ha | ha
      · exact hwfn.2.2 ha
      · exact h2 ha
      · exact render_args_no_nul ps hwf ha
    simpa using hne
  have hcstr : cstr (render_request name ps) = render_request name ps :=
    List.takeWhile_eq_self_iff.mpr hnul
  have htok : strtok_r (render_request name ps) [';'] = some (name, render_args ps) :=
    strtok_r_token name (render_args ps) ';' hwfn.1 hwfn.2.1
  have hloop := parse_command_loop_render ps hwf ((render_request name ps).length + 1) []
    (by
      have := render_args_length ps
      simp only [render_request, List.length_append, List.length_cons]
      omega)
    (Nat.zero_le _)
  unfold parse_command
  rw [hcstr, htok]
  simp only [hloop, List.length_nil, Nat.zero_add, List.nil_append]
  rcases hname with h | h
  · rw [if_pos h.1, h.2]
    split <;> rfl
  · have hne : name ≠ "ID".toList := by rw [h.1]; decide
    rw [if_neg hne, if_pos h.1, h.2]
    split <;> rfl

/-! ## The scheduler tick: lemmas -/

/-- The tick on an idle device does nothing. -/
theorem mainloop_run_outgoing_idle (now : ℚ) (app : app_t) (h : app.state = .IDLE) :
    mainloop_run_outgoing now app = (app, .OK, []) := by
  unfold mainloop_run_outgoing
  rw [if_neg (by rw [h]; decide)]

/-- The clamp of `delta_t` is `max 0`. -/
theorem delta_t_eq_max (x : ℚ) : (if x < 0 then 0 else x) = max 0 x := by
  by_cases h : x < 0
  · rw [if_pos h, max_eq_left (le_of_lt h)]
  · rw [if_neg h, max_eq_right (not_lt.mp h)]

/-- The jitter touches the voltage and the current only, and nothing in
deterministic mode. -/
theorem mainloop_run_jitter_spec (delta_t : ℚ) (app : app_t) :
    ∃ v a, mainloop_run_jitter delta_t app =
        { app with test := { app.test with dut_mv := v, dut_ma := a } } ∧
      (app.deterministic = true → v = app.test.dut_mv ∧ a = app.test.dut_ma) := by
  unfold mainloop_run_jitter
  by_cases h : app.deterministic = true
  · refine ⟨app.test.dut_mv, app.test.dut_ma, ?_, fun _ => ⟨rfl, rfl⟩⟩
    rw [if_neg (by simp [h])]
  · rw [if_pos (by simpa using h)]
    exact ⟨_, _, rfl, fun hd => absurd hd h⟩

/-- The status update: one status message goes to the subscriber; voltage,
current and deadline are the only fields that may change, and voltage and
current stay as they are in deterministic mode. -/
theorem mainloop_run_status_spec (now delta_t : ℚ) (app : app_t) :
    ∃ v a nx,
      mainloop_run_status now delta_t app =
        ({ app with test := { app.test with dut_mv := v, dut_ma := a, next_update_s := nx } },
          send_message app (STATUS_FORMAT (delta_t * 1000) v a)) ∧
      (app.deterministic = true → v = app.test.dut_mv ∧ a = app.test.dut_ma) := by
  obtain ⟨v, a, hj, hdet⟩ := mainloop_run_jitter_spec delta_t app
  unfold mainloop_run_status
  rw [hj]
  by_cases h0 : app.test.next_update_s = 0
  · refine ⟨v, a, now + app.test.rate_ms / 1000, ?_, hdet⟩
    simp [h0, format_reply, send_message]
  · refine ⟨v, a, app.test.next_update_s + app.test.rate_ms / 1000, ?_, hdet⟩
    simp [h0, format_reply, send_message]

/-- The tick on a running device: the state afterwards, the datagrams sent,
and the fields the tick leaves alone. -/
theorem mainloop_run_outgoing_running (now : ℚ) (app : app_t) (hrun : app.state = .RUNNING) :
    ∃ v a nx,
      (mainloop_run_outgoing now app).1 =
        { app with
            state := if app.test.duration_s < max 0 (now - app.test.t0) then .IDLE else .RUNNING
            test := { app.test with dut_mv := v, dut_ma := a, next_update_s := nx } } ∧
      (mainloop_run_outgoing now app).2.2 =
        (if app.test.next_update_s < now then
            send_message app (STATUS_FORMAT (max 0 (now - app.test.t0) * 1000) v a)
          else []) ++
        (if app.test.duration_s < max 0 (now - app.test.t0) then
            send_message app "STATUS;STATE=IDLE;".toList
          else []) ∧
      (app.deterministic = true → v = app.test.dut_mv ∧ a = app.test.dut_ma) := by
  unfold mainloop_run_outgoing
  rw [if_pos hrun]
  simp only [delta_t_eq_max, gt_iff_lt, format_reply]
  by_cases hfire : app.test.next_update_s < now
  · obtain ⟨v, a, nx, hst, hdet⟩ :=
      mainloop_run_status_spec now (max 0 (now - app.test.t0)) app
    refine ⟨v, a, nx, ?_, ?_, hdet⟩
    · rw [if_pos hfire, hst]
      by_cases hto : app.test.duration_s < max 0 (now - app.test.t0)
      · simp [hto]
      · simp [hto, hrun]
    · simp only [if_pos hfire, hst]
      by_cases hto : app.test.duration_s < max 0 (now - app.test.t0)
      · simp [hto, send_message]
      · simp [hto]
  · refine ⟨app.test.dut_mv, app.test.dut_ma, app.test.next_update_s, ?_, ?_,
      fun _ => ⟨rfl, rfl⟩⟩
    · rw [if_neg hfire]
      by_cases hto : app.test.duration_s < max 0 (now - app.test.t0)
      · simp [hto]
      · simp only [hto, if_false]
        rw [← hrun]
    · simp only [if_neg hfire]
      by_cases hto : app.test.duration_s < max 0 (now - app.test.t0)
      · simp [hto, send_message]
      · simp [hto]

/-- The start request `TEST;CMD=START;DURATION=1;RATE=100;` handled by a fresh
device on the unicast socket at time 10, from any sender. -/
theorem handle_message_start_demo (raddr : sockaddr_in) :
    handle_message sscanf_lf 10 demo_idle raddr "TEST;CMD=START;DURATION=1;RATE=100;".toList
        (supported_commands false) =
      ({ demo_idle with
          state := .RUNNING
          test :=
            { t0 := 10, duration_s := 1, rate_ms := 100, next_update_s := 10 + 100 / 1000,
              dut_mv := 4500, dut_ma := 100 }
          subscriber := raddr },
        .OK, [(raddr, "TEST;RESULT=STARTED;".toList)]) := by
  rw [handle_message_parse_some sscanf_lf 10 demo_idle raddr _ _ demo_start (by decide)]
  have hsw : handle_message_switch sscanf_lf 10 { demo_idle with subscriber := raddr } demo_start
      (supported_commands false) =
      ({ demo_idle with
          state := .RUNNING
          test :=
            { t0 := 10, duration_s := 1, rate_ms := 100, next_update_s := 10 + 100 / 1000,
              dut_mv := 4500, dut_ma := 100 }
          subscriber := raddr },
        .OK, "TEST;RESULT=STARTED;".toList) := by
    have h1 : sscanf_lf ['1'] = some 1 := sscanf_lf_one
    have h2 : sscanf_lf ['1', '0', '0'] = some 100 := sscanf_lf_hundred
    simp [handle_message_switch, supported_commands, command_t.val, handle_TEST,
      handle_TEST_START, handle_TEST_START_arg, request_t.nargs, request_t.argkeys,
      request_t.argvals, demo_start, Except.bind, format_reply, h1, h2, demo_idle,
      mainloop_init, demo_cfg]
  rw [hsw]

/-- One event on an idle device that is not answered `TEST;RESULT=STARTED;`
leaves the device idle, and a tick then sends nothing. -/
theorem step_idle (scan : List Char → Option ℚ) (app : app_t) (e : event_t)
    (hidle : app.state = .IDLE)
    (hns : ∀ d ∈ (step scan app e).2, d.2 ≠ "TEST;RESULT=STARTED;".toList) :
    (step scan app e).1.state = .IDLE ∧ ∀ now, e = .tick now → (step scan app e).2 = [] := by
  cases e with
  | tick now =>
    refine ⟨?_, fun _ _ => ?_⟩
    · simp only [step, mainloop_run_outgoing_idle now app hidle]
      exact hidle
    · simp only [step, mainloop_run_outgoing_idle now app hidle]
  | rx mcast r =>
    refine ⟨?_, fun now h => by cases h⟩
    simp only [step, mainloop_run_rx] at hns ⊢
    cases hparse : parse_command r.buf with
    | none =>
      rw [handle_message_parse_none scan r.now app r.addr r.buf _ hparse]
      exact hidle
    | some cmd =>
      rw [handle_message_parse_some scan r.now app r.addr r.buf _ cmd hparse] at hns ⊢
      have ho := handle_message_switch_outcome scan r.now { app with subscriber := r.addr } cmd
        (supported_commands mcast)
      revert hns
      generalize handle_message_switch scan r.now { app with subscriber := r.addr } cmd
        (supported_commands mcast) = res at ho
      intro hns
      cases ho with
      | same msg => exact hidle
      | started dd rr _ _ _ => exact absurd rfl (hns _ (List.mem_singleton.mpr rfl))
      | stopped hrun => rfl

/-- From an idle device, as long as no event is answered
`TEST;RESULT=STARTED;`, the device stays idle and no tick sends anything. -/
theorem trace_idle (scan : List Char → Option ℚ) (evs : List event_t) :
    ∀ app : app_t, app.state = .IDLE →
      (∀ e ∈ trace scan app evs, ∀ d ∈ e.2, d.2 ≠ "TEST;RESULT=STARTED;".toList) →
      (final scan app evs).state = .IDLE ∧
        ∀ e ∈ trace scan app evs, ∀ now, e.1 = .tick now → e.2 = [] := by
  induction evs with
  | nil =>
    intro app hidle _
    exact ⟨hidle, fun e he => absurd he (List.not_mem_nil _)⟩
  | cons ev evs ih =>
    intro app hidle hns
    have hstep := step_idle scan app ev hidle (hns (ev, (step scan app ev).2)
      (List.mem_cons_self _ _))
    have hrest := ih (step scan app ev).1 hstep.1
      (fun e he => hns e (List.mem_cons_of_mem _ he))
    refine ⟨hrest.1, ?_⟩
    intro e he now hnow
    rcases List.mem_cons.mp he with h | h
    · rw [h] at hnow ⊢
      exact hstep.2 now hnow
    · exact hrest.2 e h now hnow

/-- The token list does not depend on the fuel once the fuel exceeds the
length of the text. -/
theorem strtok_tokens_fuel (delim : List Char) (n : Nat) :
    ∀ (f1 f2 : Nat) (s : List Char), s.length ≤ n → s.length < f1 → s.length < f2 →
      strtok_tokens f1 s delim = strtok_tokens f2 s delim := by
  induction n with
  | zero =>
    intro f1 f2 s hn h1 h2
    have hnil : s = [] := List.length_eq_zero.mp (Nat.le_zero.mp hn)
    subst hnil
    cases f1 with
    | zero => exact absurd h1 (Nat.lt_irrefl _)
    | succ g1 =>
      cases f2 with
      | zero => exact absurd h2 (Nat.lt_irrefl _)
      | succ g2 => simp [strtok_tokens, strtok_r]
  | succ n ih =>
    intro f1 f2 s hn h1 h2
    cases f1 with
    | zero => exact absurd h1 (Nat.not_lt_zero _)
    | succ g1 =>
      cases f2 with
      | zero => exact absurd h2 (Nat.not_lt_zero _)
      | succ g2 =>
        rw [strtok_tokens, strtok_tokens]
        cases hs : strtok_r s delim with
        | none => rfl
        | some tr =>
          obtain ⟨tok, rest⟩ := tr
          have hr := strtok_r_rest_length s delim tok rest hs
          simp only
          rw [ih g1 g2 rest (by omega) (by omega) (by omega)]

/-- The loop of `parse_command` on a text is the loop over its tokens. -/
theorem parse_command_loop_tokens (fuel : Nat) :
    ∀ (savep : List Char) (args : List (List Char × List Char)),
      parse_command_loop fuel savep args =
        parse_tokens (strtok_tokens fuel savep [';']) args := by
  induction fuel with
  | zero =>
    intro savep args
    rfl
  | succ f ih =>
    intro savep args
    rw [parse_command_loop, strtok_tokens]
    cases hs : strtok_r savep [';'] with
    | none => rfl
    | some tr =>
      obtain ⟨tok, rest⟩ := tr
      simp only [parse_tokens, split_pair]
      split
      · rfl
      · cases hk : strtok_r tok ['='] with
        | none => rfl
        | some kr =>
          obtain ⟨key, save2p⟩ := kr
          simp only
          cases hv : strtok_r save2p ['='] with
          | none => rfl
          | some vr =>
            obtain ⟨val, sv⟩ := vr
            simp only
            exact ih rest _

/-- What `parse_command` returns, in terms of the tokens of the buffer. -/
theorem parse_command_tokens (buf : List Char) :
    parse_command buf =
      match datagram_tokens buf with
      | [] => none
      | name :: args =>
        if name = "ID".toList then (parse_tokens args []).map (fun a => ⟨.ID, a⟩)
        else if name = "TEST".toList then (parse_tokens args []).map (fun a => ⟨.TEST, a⟩)
        else some ⟨.UNKNOWN, []⟩ := by
  unfold parse_command datagram_tokens
  rw [strtok_tokens]
  cases hs : strtok_r (cstr buf) [';'] with
  | none => rfl
  | some tr =>
    obtain ⟨tok, rest⟩ := tr
    have hr := strtok_r_rest_length (cstr buf) [';'] tok rest hs
    have hc : (cstr buf).length ≤ buf.length := (List.takeWhile_sublist _).length_le
    simp only
    rw [parse_command_loop_tokens,
      strtok_tokens_fuel [';'] rest.length (buf.length + 1) buf.length rest (Nat.le_refl _)
        (by omega) (by omega)]

/-- The loop over the tokens fails exactly when a token is left after the
table of pairs is full: more tokens than free slots, and every token that
takes a slot is a key/value pair. -/
theorem parse_tokens_none_iff (toks : List (List Char)) :
    ∀ args : List (List Char × List Char),
      (parse_tokens toks args = none ↔
        MAXKVPAIRS - args.length < toks.length ∧
          ∀ t ∈ toks.take (MAXKVPAIRS - args.length), split_pair t ≠ none) := by
  induction toks with
  | nil =>
    intro args
    simp [parse_tokens]
  | cons t ts ih =>
    intro args
    rw [parse_tokens]
    by_cases hfull : args.length ≥ MAXKVPAIRS
    · rw [if_pos hfull]
      have hz : MAXKVPAIRS - args.length = 0 := Nat.sub_eq_zero_of_le hfull
      simp [hz]
    · rw [if_neg hfull]
      obtain ⟨k, hk⟩ : ∃ k, MAXKVPAIRS - args.length = k + 1 :=
        ⟨MAXKVPAIRS - args.length - 1, by omega⟩
      cases hsp : split_pair t with
      | none =>
        simp only [hk, List.take_succ_cons, List.mem_cons, forall_eq_or_imp]
        constructor
        · intro h
          cases h
        · intro h
          exact absurd hsp h.2.1
      | some p =>
        have hk2 : MAXKVPAIRS - (args ++ [p]).length = k := by
          simp only [List.length_append, List.length_singleton]
          omega
        simp only [ih (args ++ [p]), hk2, hk, List.take_succ_cons, List.mem_cons,
          forall_eq_or_imp, List.length_cons, hsp]
        constructor
        · intro h
          exact ⟨by omega, by simp, h.2⟩
        · intro h
          exact ⟨by omega, h.2.2⟩

/-- A token without `=` has no key/value split. -/
theorem split_pair_no_eq (tok : List Char) (h : '=' ∉ tok) : split_pair tok = none := by
  unfold split_pair
  cases tok with
  | nil => simp [strtok_r]
  | cons c cs =>
    rw [strtok_r_last (c :: cs) '=' (List.cons_ne_nil _ _) h]
    simp [strtok_r]

/-- The loop over the tokens stops, without failing, at the first token that
has no key/value split, if the table is not yet full: the pairs before it are
kept and the tokens after it are not looked at. -/
theorem parse_tokens_stop (t : List Char) (post : List (List Char))
    (ht : split_pair t = none) (pre : List (List Char)) :
    ∀ (ps args : List (List Char × List Char)), pre.map split_pair = ps.map some →
      args.length + pre.length < MAXKVPAIRS →
      parse_tokens (pre ++ t :: post) args = some (args ++ ps) := by
  induction pre with
  | nil =>
    intro ps args hps hlen
    have hnil : ps = [] := by
      cases ps with
      | nil => rfl
      | cons p ps => simp at hps
    subst hnil
    rw [List.nil_append, parse_tokens, if_neg (by simp at hlen; omega), ht, List.append_nil]
  | cons a pre ih =>
    intro ps args hps hlen
    cases ps with
    | nil => simp at hps
    | cons p ps =>
      simp only [List.map_cons, List.cons.injEq] at hps
      simp only [List.length_cons] at hlen
      rw [List.cons_append, parse_tokens, if_neg (by omega), hps.1]
      simp only
      rw [ih ps (args ++ [p]) hps.2 (by simp only [List.length_append, List.length_singleton]; omega)]
      simp

/-! ## Replies, jitter, validation and subscriber: lemmas -/

/-- The length of the reply of `handle_ID` to a request without arguments. -/
theorem handle_ID_reply_length (app : app_t) (req : request_t) (h : req.nargs = 0) :
    (handle_ID app req).2.2.length = 18 + app.modelnum.length + app.serialnum.length := by
  simp [handle_ID, h, format_reply]
  omega

/-- The conversion `(int)x` of a whole number. -/
theorem double_to_int_natCast (n : Nat) :
    double_to_int (n : ℚ) = if (n : Int) ≤ 2147483647 then (n : Int) else -2147483648 := by
  unfold double_to_int
  simp only [Rat.num_natCast, Rat.den_natCast, Int.Nat.cast_ofNat_Int, Nat.cast_one,
    Int.tdiv_one]
  by_cases h : (n : Int) ≤ 2147483647
  · rw [if_pos ⟨by omega, h⟩, if_pos h]
  · rw [if_neg (fun hh => h hh.2), if_neg h]

/-- The sub-second part computed by the jitter is a fraction in `[0, 1)` as
long as the elapsed time in microseconds is within the range of `int`. -/
theorem subsecond_part_range (x : ℚ) (h0 : 0 ≤ x) (hr : x < 2147483648) :
    0 ≤ ((Int.tmod (double_to_int x) 1000000 : Int) : ℚ) / 1000000 ∧
      ((Int.tmod (double_to_int x) 1000000 : Int) : ℚ) / 1000000 < 1 := by
  have hnum : 0 ≤ x.num := Rat.num_nonneg.mpr h0
  have hden : (0 : Int) ≤ (x.den : Int) := Int.ofNat_nonneg _
  have ht0 : 0 ≤ Int.tdiv x.num x.den := Int.tdiv_nonneg hnum hden
  have hfloor : Int.tdiv x.num x.den = ⌊x⌋ := by
    rw [Int.tdiv_eq_ediv hnum hden, Rat.floor_def]
  have hlt : Int.tdiv x.num x.den < 2147483648 := by
    rw [hfloor, Int.floor_lt]
    exact_mod_cast hr
  have hcast : double_to_int x = Int.tdiv x.num x.den := by
    unfold double_to_int
    simp only
    rw [if_pos ⟨by omega, by omega⟩]
  rw [hcast]
  have hm0 : 0 ≤ Int.tmod (Int.tdiv x.num x.den) 1000000 := Int.tmod_nonneg _ ht0
  have hm1 : Int.tmod (Int.tdiv x.num x.den) 1000000 < 1000000 :=
    Int.tmod_lt_of_pos _ (by decide)
  have hq0 : (0 : ℚ) ≤ ((Int.tmod (Int.tdiv x.num x.den) 1000000 : Int) : ℚ) := by
    exact_mod_cast hm0
  have hq1 : ((Int.tmod (Int.tdiv x.num x.den) 1000000 : Int) : ℚ) < 1000000 := by
    exact_mod_cast hm1
  constructor
  · positivity
  · rw [div_lt_one (by norm_num)]
    exact hq1

/-- The jitter stays within half its amplitude as long as the elapsed time in
microseconds is within the range of `int` (less than 2147.483648 seconds). -/
theorem mainloop_run_jitter_bound (delta_t : ℚ) (app : app_t) (h0 : 0 ≤ delta_t)
    (hr : delta_t * 1000000 < 2147483648) :
    |(mainloop_run_jitter delta_t app).test.dut_mv - app.test.dut_mv| ≤ 28.3945 ∧
      |(mainloop_run_jitter delta_t app).test.dut_ma - app.test.dut_ma| ≤ 61.725 := by
  obtain ⟨hf0, hf1⟩ := subsecond_part_range (delta_t * 1000000) (by positivity) hr
  unfold mainloop_run_jitter
  by_cases hdet : app.deterministic = true
  · rw [if_neg (by simp [hdet])]
    norm_num
  · rw [if_pos (by simpa using hdet)]
    simp only [add_sub_cancel_left]
    constructor
    · rw [abs_le]
      constructor <;> norm_num <;> linarith
    · rw [abs_le]
      constructor <;> norm_num <;> linarith

/-- The scanner reads `-1` as -1. -/
theorem sscanf_lf_minus_one : sscanf_lf "-1".toList = some (-1) := by
  rw [sscanf_lf, show scan_decimal "-1".toList = some (true, 1, 0) from by decide]
  norm_num

/-- The scanner reads `-100` as -100. -/
theorem sscanf_lf_minus_hundred : sscanf_lf "-100".toList = some (-100) := by
  rw [sscanf_lf, show scan_decimal "-100".toList = some (true, 100, 0) from by decide]
  norm_num

/-- The scanner finds no number in `abc`. -/
theorem sscanf_lf_abc : sscanf_lf "abc".toList = none := by
  rw [sscanf_lf, show scan_decimal "abc".toList = none from by decide]

/-- With first argument `CMD=START`, `handle_TEST` is `handle_TEST_START`. -/
theorem handle_TEST_start_eq (scan : List Char → Option ℚ) (now : ℚ) (app : app_t)
    (req : request_t) (rest : List (List Char × List Char))
    (hargs : req.args = ("CMD".toList, "START".toList) :: rest) :
    handle_TEST scan now app req = handle_TEST_START scan now app req := by
  simp [handle_TEST, request_t.nargs, request_t.argkeys, request_t.argvals, hargs]

/-- One pass of the loop of `handle_TEST_START` goes on to the next argument
unless the key is `DURATION` or `RATE` and the value does not scan. -/
theorem handle_TEST_START_arg_passes (scan : List Char → Option ℚ) (req : request_t) (i : Nat)
    (dr : ℚ × ℚ)
    (h : ¬((req.argkeys i = "DURATION".toList ∨ req.argkeys i = "RATE".toList) ∧
      scan (req.argvals i) = none)) :
    ∃ dr1, handle_TEST_START_arg scan req i dr = .ok dr1 := by
  unfold handle_TEST_START_arg
  by_cases hd : req.argkeys i = "DURATION".toList
  · rw [if_pos hd]
    cases hsc : scan (req.argvals i) with
    | none => exact absurd ⟨Or.inl hd, hsc⟩ h
    | some d => exact ⟨_, rfl⟩
  · rw [if_neg hd]
    by_cases hr : req.argkeys i = "RATE".toList
    · rw [if_pos hr]
      cases hsc : scan (req.argvals i) with
      | none => exact absurd ⟨Or.inr hr, hsc⟩ h
      | some d => exact ⟨_, rfl⟩
    · rw [if_neg hr]
      exact ⟨_, rfl⟩

/-- An early return of the loop of `handle_TEST_START` carries one of the two
parse errors. -/
theorem handle_TEST_START_arg_error (scan : List Char → Option ℚ) (req : request_t) (i : Nat)
    (dr : ℚ × ℚ) (e : List Char) (h : handle_TEST_START_arg scan req i dr = .error e) :
    e = "TEST;RESULT=ERROR;MSG=Could not parse DURATION;".toList ∨
      e = "TEST;RESULT=ERROR;MSG=Could not parse RATE;".toList := by
  unfold handle_TEST_START_arg at h
  split at h
  · split at h
    · cases h
    · cases h
      exact Or.inl rfl
  · split at h
    · split at h
      · cases h
      · cases h
        exact Or.inr rfl
    · cases h

/-- One pass of the loop of `handle_TEST_START` that does not return: a
`DURATION` key sets the duration only, a `RATE` key the rate only, any other
key nothing. -/
theorem handle_TEST_START_arg_ok (scan : List Char → Option ℚ) (req : request_t) (i : Nat)
    (dr dr1 : ℚ × ℚ) (h : handle_TEST_START_arg scan req i dr = .ok dr1) :
    (req.argkeys i = "DURATION".toList ∧ dr1.2 = dr.2) ∨
      (req.argkeys i = "RATE".toList ∧ dr1.1 = dr.1) ∨
      (req.argkeys i ≠ "DURATION".toList ∧ req.argkeys i ≠ "RATE".toList ∧ dr1 = dr) := by
  unfold handle_TEST_START_arg at h
  split at h
  · rename_i hk
    split at h
    · cases h
      exact Or.inl ⟨hk, rfl⟩
    · cases h
  · rename_i hk
    split at h
    · rename_i hk2
      split at h
      · cases h
        exact Or.inr (Or.inl ⟨hk2, rfl⟩)
      · cases h
    · rename_i hk2
      cases h
      exact Or.inr (Or.inr ⟨hk, hk2, rfl⟩)

/-- The loop of `handle_TEST_START` leaves both locals non-zero only when the
second and third arguments carry the keys `DURATION` and `RATE`, one each. -/
theorem handle_TEST_START_loop_keys (scan : List Char → Option ℚ) (req : request_t)
    (d r : ℚ)
    (h : (handle_TEST_START_arg scan req 1 (0, 0)).bind (handle_TEST_START_arg scan req 2) =
      .ok (d, r)) (hd : d ≠ 0) (hr : r ≠ 0) :
    (req.argkeys 1 = "DURATION".toList ∧ req.argkeys 2 = "RATE".toList) ∨
      (req.argkeys 1 = "RATE".toList ∧ req.argkeys 2 = "DURATION".toList) := by
  cases h1 : handle_TEST_START_arg scan req 1 (0, 0) with
  | error e =>
    rw [h1] at h
    cases h
  | ok dr1 =>
    rw [h1] at h
    have h2 : handle_TEST_START_arg scan req 2 dr1 = .ok (d, r) := h
    have c1 := handle_TEST_START_arg_ok scan req 1 (0, 0) dr1 h1
    have c2 := handle_TEST_START_arg_ok scan req 2 dr1 (d, r) h2
    simp only at c1 c2
    rcases c1 with ⟨k1, e1⟩ | ⟨k1, e1⟩ | ⟨_, _, e1⟩
    · rcases c2 with ⟨k2, e2⟩ | ⟨k2, e2⟩ | ⟨_, _, e2⟩
      · exact absurd (e2.trans e1) hr
      · exact Or.inl ⟨k1, k2⟩
      · rw [← e2] at e1
        exact absurd e1 hr
    · rcases c2 with ⟨k2, e2⟩ | ⟨k2, e2⟩ | ⟨_, _, e2⟩
      · exact Or.inr ⟨k1, k2⟩
      · exact absurd (e2.trans e1) hd
      · rw [← e2] at e1
        exact absurd e1 hd
    · rw [e1] at c2
      rcases c2 with ⟨k2, e2⟩ | ⟨k2, e2⟩ | ⟨_, _, e2⟩
      · exact absurd e2 hr
      · exact absurd e2 hd
      · cases e2
        exact absurd rfl hd

/-- The function `handle_TEST_START` either starts a session, and then the
request has three arguments with the keys `DURATION` and `RATE` one each in
the second and third place, or leaves the device alone with a reply other than
`TEST;RESULT=STARTED;`. -/
theorem handle_TEST_START_started_or_not (scan : List Char → Option ℚ) (now : ℚ) (app : app_t)
    (req : request_t) :
    (req.nargs = 3 ∧
        ((req.argkeys 1 = "DURATION".toList ∧ req.argkeys 2 = "RATE".toList) ∨
          (req.argkeys 1 = "RATE".toList ∧ req.argkeys 2 = "DURATION".toList)) ∧
        app.state = .IDLE ∧
        (handle_TEST_START scan now app req).1.state = .RUNNING ∧
        (handle_TEST_START scan now app req).2.2 = "TEST;RESULT=STARTED;".toList) ∨
      ((handle_TEST_START scan now app req).1 = app ∧
        (handle_TEST_START scan now app req).2.2 ≠ "TEST;RESULT=STARTED;".toList) := by
  have hm1 : "TEST;RESULT=ERROR;MSG=\"CMD=START\" expects DURATION and RATE;".toList ≠
      "TEST;RESULT=STARTED;".toList := by decide
  have hm2 : "TEST;RESULT=ERROR;MSG=Could not parse DURATION;".toList ≠
      "TEST;RESULT=STARTED;".toList := by decide
  have hm3 : "TEST;RESULT=ERROR;MSG=Could not parse RATE;".toList ≠
      "TEST;RESULT=STARTED;".toList := by decide
  have hm4 : "TEST;RESULT=ERROR;MSG=Expected duration>0 and rate>0;".toList ≠
      "TEST;RESULT=STARTED;".toList := by decide
  have hm5 : "TEST;RESULT=ERROR;MSG=Already running;".toList ≠
      "TEST;RESULT=STARTED;".toList := by decide
  unfold handle_TEST_START format_reply
  by_cases hn : req.nargs ≠ 3
  · rw [if_pos hn]
    exact Or.inr ⟨rfl, hm1⟩
  · rw [if_neg hn]
    cases hchain : (handle_TEST_START_arg scan req 1 (0, 0)).bind
        (handle_TEST_START_arg scan req 2) with
    | error e =>
      right
      refine ⟨rfl, ?_⟩
      have he : e = "TEST;RESULT=ERROR;MSG=Could not parse DURATION;".toList ∨
          e = "TEST;RESULT=ERROR;MSG=Could not parse RATE;".toList := by
        cases h1 : handle_TEST_START_arg scan req 1 (0, 0) with
        | error e1 =>
          rw [h1] at hchain
          cases hchain
          exact handle_TEST_START_arg_error scan req 1 (0, 0) e h1
        | ok dr1 =>
          rw [h1] at hchain
          exact handle_TEST_START_arg_error scan req 2 dr1 e hchain
      show e ≠ "TEST;RESULT=STARTED;".toList
      rcases he with h | h
      · rw [h]
        exact hm2
      · rw [h]
        exact hm3
    | ok dr =>
      obtain ⟨d, r⟩ := dr
      simp only
      by_cases hz : d = 0 ∨ r = 0
      · rw [if_pos hz]
        exact Or.inr ⟨rfl, hm4⟩
      · rw [if_neg hz]
        by_cases hs : app.state = .IDLE
        · rw [if_pos hs]
          left
          exact ⟨not_not.mp hn,
            handle_TEST_START_loop_keys scan req d r hchain (fun h => hz (Or.inl h))
              (fun h => hz (Or.inr h)), hs, rfl, rfl⟩
        · rw [if_neg hs]
          exact Or.inr ⟨rfl, hm5⟩

/-- The key/value split of a token `k=v`: the key is the text before the first
`=`, the value is the first token `strtok_r` finds in `v` with the delimiter
`=`. -/
theorem split_pair_key (k v : List Char) (hk : k ≠ []) (hke : '=' ∉ k) :
    split_pair (k ++ '=' :: v) = (strtok_r v ['=']).map (fun r => (k, r.1)) := by
  unfold split_pair
  rw [strtok_r_token k v '=' hk hke]
  simp only
  cases strtok_r v ['='] with
  | none => rfl
  | some r => rfl

/-- The split of `k=v` when `v` holds no `=`. -/
theorem split_pair_simple (k v : List Char) (hk : k ≠ []) (hke : '=' ∉ k) (hv : v ≠ [])
    (hve : '=' ∉ v) : split_pair (k ++ '=' :: v) = some (k, v) := by
  rw [split_pair_key k v hk hke, strtok_r_last v '=' hv hve]
  rfl

/-- The split of `k=v1=rest`: the value stops at the second `=`. -/
theorem split_pair_second_eq (k v1 rest : List Char) (hk : k ≠ []) (hke : '=' ∉ k)
    (hv : v1 ≠ []) (hve : '=' ∉ v1) :
    split_pair (k ++ '=' :: (v1 ++ '=' :: rest)) = some (k, v1) := by
  rw [split_pair_key k _ hk hke, strtok_r_token v1 rest '=' hv hve]
  rfl

/-- `parse_command` on a buffer `C;t;` with one argument token `t`. -/
theorem parse_command_single (name : List Char) (cmd : command_t) (t : List Char)
    (hname : (name = "ID".toList ∧ cmd = .ID) ∨ (name = "TEST".toList ∧ cmd = .TEST))
    (ht : t ≠ []) (hts : ';' ∉ t) (htn : Char.ofNat 0 ∉ t) :
    parse_command (name ++ ';' :: (t ++ [';'])) =
      match split_pair t with
      | none => some ⟨cmd, []⟩
      | some p => some ⟨cmd, [p]⟩ := by
  have hwfn : wf_name name := by
    rcases hname with h | h <;> rw [h.1] <;> unfold wf_name <;> decide
  have hnul : ∀ a ∈ name ++ ';' :: (t ++ [';']), (a != Char.ofNat 0) = true := by
    intro a ha
    have hne : a ≠ Char.ofNat 0 := by
      intro h
      rw [h] at ha
      simp only [List.mem_append, List.mem_cons, List.mem_singleton, List.not_mem_nil,
        or_false] at ha
      have h2 : Char.ofNat 0 ≠ ';' := by decide
      rcases ha with ha | ha | ha | ha
      · exact hwfn.2.2 ha
      · exact h2 ha
      · exact htn ha
      · exact h2 ha
    simpa using hne
  have htoks : datagram_tokens (name ++ ';' :: (t ++ [';'])) = [name, t] := by
    unfold datagram_tokens cstr
    rw [List.takeWhile_eq_self_iff.mpr hnul]
    have hlen : (name ++ ';' :: (t ++ [';'])).length + 1 =
        (name.length + t.length) + 3 := by
      simp only [List.length_append, List.length_cons, List.length_nil]
      omega
    rw [hlen, strtok_tokens, strtok_r_token name (t ++ [';']) ';' hwfn.1 hwfn.2.1]
    simp only
    rw [strtok_tokens, strtok_r_token t [] ';' ht hts]
    simp only
    rw [strtok_tokens]
    simp [strtok_r]
  rw [parse_command_tokens, htoks]
  have hfull : ¬(([] : List (List Char × List Char)).length ≥ MAXKVPAIRS) := by
    simp [MAXKVPAIRS]
  simp only [parse_tokens, if_neg hfull]
  rcases hname with h | h
  · rw [if_pos h.1, h.2]
    cases split_pair t with
    | none => rfl
    | some p => rfl
  · have hne : name ≠ "ID".toList := by rw [h.1]; decide
    rw [if_neg hne, if_pos h.1, h.2]
    cases split_pair t with
    | none => rfl
    | some p => rfl

/-- The scanner reads `0` as 0. -/
theorem sscanf_lf_zero : sscanf_lf "0".toList = some 0 := by
  rw [sscanf_lf, show scan_decimal "0".toList = some (false, 0, 0) from by decide]
  norm_num

/-- The loop of `handle_TEST_START` on a request whose second and third
arguments both pass: the duration is still zero when neither key is
`DURATION`, the rate is still zero when neither key is `RATE`. -/
theorem handle_TEST_START_loop_unset (scan : List Char → Option ℚ) (req : request_t)
    (h1 : ¬((req.argkeys 1 = "DURATION".toList ∨ req.argkeys 1 = "RATE".toList) ∧
      scan (req.argvals 1) = none))
    (h2 : ¬((req.argkeys 2 = "DURATION".toList ∨ req.argkeys 2 = "RATE".toList) ∧
      scan (req.argvals 2) = none)) :
    ∃ d r, (handle_TEST_START_arg scan req 1 (0, 0)).bind (handle_TEST_START_arg scan req 2) =
        .ok (d, r) ∧
      (req.argkeys 1 ≠ "DURATION".toList → req.argkeys 2 ≠ "DURATION".toList → d = 0) ∧
      (req.argkeys 1 ≠ "RATE".toList → req.argkeys 2 ≠ "RATE".toList → r = 0) := by
  obtain ⟨dr1, e1⟩ := handle_TEST_START_arg_passes scan req 1 (0, 0) h1
  obtain ⟨dr2, e2⟩ := handle_TEST_START_arg_passes scan req 2 dr1 h2
  have c1 := handle_TEST_START_arg_ok scan req 1 (0, 0) dr1 e1
  have c2 := handle_TEST_START_arg_ok scan req 2 dr1 dr2 e2
  obtain ⟨d, r⟩ := dr2
  refine ⟨d, r, ?_, ?_, ?_⟩
  · rw [e1]
    exact e2
  · intro n1 n2
    simp only at c1 c2
    rcases c1 with ⟨k1, _⟩ | ⟨_, f1⟩ | ⟨_, _, f1⟩
    · exact absurd k1 n1
    · rcases c2 with ⟨k2, _⟩ | ⟨_, f2⟩ | ⟨_, _, f2⟩
      · exact absurd k2 n2
      · exact f2.trans f1
      · rw [← f2] at f1
        exact f1
    · rw [f1] at c2
      rcases c2 with ⟨k2, _⟩ | ⟨_, f2⟩ | ⟨_, _, f2⟩
      · exact absurd k2 n2
      · exact f2
      · cases f2
        rfl
  · intro n1 n2
    simp only at c1 c2
    rcases c1 with ⟨_, f1⟩ | ⟨k1, _⟩ | ⟨_, _, f1⟩
    · rcases c2 with ⟨_, f2⟩ | ⟨k2, _⟩ | ⟨_, _, f2⟩
      · exact f2.trans f1
      · exact absurd k2 n2
      · rw [← f2] at f1
        exact f1
    · exact absurd k1 n1
    · rw [f1] at c2
      rcases c2 with ⟨_, f2⟩ | ⟨k2, _⟩ | ⟨_, _, f2⟩
      · exact f2
      · exact absurd k2 n2
      · cases f2
        rfl

/-- A datagram that parses to a request of kind `ID`, on either socket and in
any device state.  Without an argument, and with a model and a serial string
short enough for the reply to fit `response` (together at most 237
characters), the reply is `ID;MODEL=<model>;SERIAL=<serial>;`; with any
argument it is `ERR;REASON=Unexpected argument to ID;`, which always fits.
The device is unchanged but for the subscriber, which becomes the sender. -/
theorem handle_message_ID_within_response (scan : List Char → Option ℚ) (now : ℚ) (app : app_t)
    (raddr : sockaddr_in) (buf : List Char) (mcast : Bool) (req : request_t)
    (hparse : parse_command buf = some req) (hcmd : req.cmd = .ID) :
    (req.nargs = 0 → app.modelnum.length + app.serialnum.length ≤ 237 →
        handle_message scan now app raddr buf (supported_commands mcast) =
          ({ app with subscriber := raddr }, .OK,
            [(raddr, "ID;MODEL=".toList ++ app.modelnum ++ ";SERIAL=".toList ++
              app.serialnum ++ ";".toList)]) ∧
        response_fits ("ID;MODEL=".toList ++ app.modelnum ++ ";SERIAL=".toList ++
          app.serialnum ++ ";".toList)) ∧
      (req.nargs ≠ 0 →
        handle_message scan now app raddr buf (supported_commands mcast) =
          ({ app with subscriber := raddr }, .OK,
            [(raddr, "ERR;REASON=Unexpected argument to ID;".toList)]) ∧
        response_fits "ERR;REASON=Unexpected argument to ID;".toList) := by
  rw [handle_message_parse_some scan now app raddr buf _ req hparse]
  have hsw : handle_message_switch scan now { app with subscriber := raddr } req
      (supported_commands mcast) = handle_ID { app with subscriber := raddr } req := by
    cases mcast <;> simp [handle_message_switch, supported_commands, hcmd, command_t.val]
  rw [hsw]
  constructor
  · intro hn hlen
    refine ⟨by simp [handle_ID, hn, format_reply], ?_⟩
    unfold response_fits MAXREPLYSZ
    have h1 : "ID;MODEL=".toList.length = 9 := rfl
    have h2 : ";SERIAL=".toList.length = 8 := rfl
    have h3 : ";".toList.length = 1 := rfl
    simp only [List.length_append, h1, h2, h3]
    omega
  · intro hn
    refine ⟨by simp [handle_ID, hn, format_reply], ?_⟩
    unfold response_fits
    decide

/-- The datagrams `ID;` and `ID;X=1;` on the multicast socket of the example
device in a session. -/
theorem handle_message_ID_demo :
    handle_message sscanf_lf 12 demo_running demo_client "ID;".toList (supported_commands true) =
        ({ demo_running with subscriber := demo_client }, .OK,
          [(demo_client, "ID;MODEL=M001;SERIAL=SN0123456;".toList)]) ∧
      handle_message sscanf_lf 12 demo_running demo_client "ID;X=1;".toList
          (supported_commands true) =
        ({ demo_running with subscriber := demo_client }, .OK,
          [(demo_client, "ERR;REASON=Unexpected argument to ID;".toList)]) :=
  ⟨((handle_message_ID_within_response sscanf_lf 12 demo_running demo_client "ID;".toList true
      { cmd := .ID, args := [] } (by decide) rfl).1 rfl (by decide)).1,
    ((handle_message_ID_within_response sscanf_lf 12 demo_running demo_client "ID;X=1;".toList
      true { cmd := .ID, args := [("X".toList, "1".toList)] } (by decide) rfl).2
      (by decide)).1⟩

/-! ## The update deadline: lemmas -/

/-- The deadline the status update of `mainloop_run` leaves: the old deadline,
or `now` when the old deadline is zero, moved on by the rate. -/
theorem mainloop_run_status_deadline (now delta_t : ℚ) (app : app_t) :
    (mainloop_run_status now delta_t app).1.test.next_update_s =
      (if app.test.next_update_s = 0 then now else app.test.next_update_s) +
        app.test.rate_ms / 1000 := by
  obtain ⟨v, a, hj, _⟩ := mainloop_run_jitter_spec delta_t app
  unfold mainloop_run_status
  rw [hj]
  by_cases h0 : app.test.next_update_s = 0
  · simp [h0]
  · simp [h0]

/-- The deadline after a tick of a running device. -/
theorem mainloop_run_outgoing_deadline (now : ℚ) (app : app_t) (hrun : app.state = .RUNNING) :
    (mainloop_run_outgoing now app).1.test.next_update_s =
      if app.test.next_update_s < now then
        (if app.test.next_update_s = 0 then now else app.test.next_update_s) +
          app.test.rate_ms / 1000
      else app.test.next_update_s := by
  unfold mainloop_run_outgoing
  rw [if_pos hrun]
  simp only [delta_t_eq_max, gt_iff_lt]
  by_cases hfire : app.test.next_update_s < now
  · simp only [if_pos hfire]
    split
    · exact mainloop_run_status_deadline now _ app
    · exact mainloop_run_status_deadline now _ app
  · simp only [if_neg hfire]
    split <;> rfl

/-- With a rate that is not negative, the tick of a running device never moves
the deadline back. -/
theorem mainloop_run_outgoing_deadline_mono (now : ℚ) (app : app_t)
    (hrun : app.state = .RUNNING) (hrate : 0 ≤ app.test.rate_ms) :
    app.test.next_update_s ≤ (mainloop_run_outgoing now app).1.test.next_update_s := by
  rw [mainloop_run_outgoing_deadline now app hrun]
  have hr : 0 ≤ app.test.rate_ms / 1000 := div_nonneg hrate (by norm_num)
  by_cases hfire : app.test.next_update_s < now
  · rw [if_pos hfire]
    by_cases h0 : app.test.next_update_s = 0
    · rw [if_pos h0]
      linarith
    · rw [if_neg h0]
      linarith
  · rw [if_neg hfire]

/-- The start request `TEST;CMD=START;DURATION=1;RATE=-100;` handled by a fresh
device on the unicast socket at time 10: the session starts, with the deadline
of the first update at 9.9, before the start. -/
theorem handle_message_start_negative_rate :
    handle_message sscanf_lf 10 demo_idle demo_client
        "TEST;CMD=START;DURATION=1;RATE=-100;".toList (supported_commands false) =
      ({ demo_idle with
          state := .RUNNING
          test :=
            { t0 := 10, duration_s := 1, rate_ms := -100, next_update_s := 99 / 10,
              dut_mv := 4500, dut_ma := 100 }
          subscriber := demo_client },
        .OK, [(demo_client, "TEST;RESULT=STARTED;".toList)]) := by
  rw [handle_message_parse_some sscanf_lf 10 demo_idle demo_client _ _
    { cmd := .TEST
      args := [("CMD".toList, "START".toList), ("DURATION".toList, "1".toList),
        ("RATE".toList, "-100".toList)] } (by decide)]
  have h1 : sscanf_lf ['1'] = some 1 := sscanf_lf_one
  have h2 : sscanf_lf ['-', '1', '0', '0'] = some (-100) := sscanf_lf_minus_hundred
  have h3 : (10 : ℚ) + -100 / 1000 = 99 / 10 := by norm_num
  simp [handle_message_switch, supported_commands, command_t.val, handle_TEST,
    handle_TEST_START, handle_TEST_START_arg, request_t.nargs, request_t.argkeys,
    request_t.argvals, Except.bind, format_reply, h1, h2, h3, demo_idle,
    mainloop_init, demo_cfg]

/-! ## C1 to C4: the command handlers -/

/-- C1: on an `IDLE` device, a `TEST` request with exactly the three arguments
`CMD=START`, then `DURATION=d` and `RATE=r` in either order, both values
scanning to non-zero numbers, is answered `TEST;RESULT=STARTED;` by
`handle_TEST_START` (and by `handle_TEST`, which dispatches to it); the session
afterwards is `RUNNING` with start time `now`, duration `d`, rate `r`, next
update at `now + r/1000`, and the configured initial voltage and current. -/
theorem handle_TEST_START_idle (scan : List Char → Option ℚ) (now : ℚ) (app : app_t)
    (req : request_t) (dv rv : List Char) (d r : ℚ)
    (hidle : app.state = .IDLE)
    (hargs : req.args = [("CMD".toList, "START".toList), ("DURATION".toList, dv),
          ("RATE".toList, rv)] ∨
      req.args = [("CMD".toList, "START".toList), ("RATE".toList, rv),
          ("DURATION".toList, dv)])
    (hd : scan dv = some d) (hr : scan rv = some r) (hd0 : d ≠ 0) (hr0 : r ≠ 0) :
    handle_TEST_START scan now app req =
        ({ app with
            state := .RUNNING
            test :=
              { t0 := now, duration_s := d, rate_ms := r, next_update_s := now + r / 1000,
                dut_mv := app.initial_dut_mv, dut_ma := app.initial_dut_ma } },
          .OK, "TEST;RESULT=STARTED;".toList) ∧
      handle_TEST scan now app req =
        ({ app with
            state := .RUNNING
            test :=
              { t0 := now, duration_s := d, rate_ms := r, next_update_s := now + r / 1000,
                dut_mv := app.initial_dut_mv, dut_ma := app.initial_dut_ma } },
          .OK, "TEST;RESULT=STARTED;".toList) := by
  rcases hargs with h | h <;>
    simp [handle_TEST, handle_TEST_START, handle_TEST_START_arg, request_t.nargs,
      request_t.argkeys, request_t.argvals, h, hd, hr, hd0, hr0, hidle, Except.bind,
      format_reply]

/-- C1 at `TEST;CMD=START;DURATION=1;RATE=100;` on a fresh device at time 10. -/
theorem handle_TEST_START_idle_witness :
    demo_idle.state = .IDLE ∧
      handle_TEST_START sscanf_lf 10 demo_idle demo_start =
        ({ demo_idle with
            state := .RUNNING
            test :=
              { t0 := 10, duration_s := 1, rate_ms := 100, next_update_s := 10 + 100 / 1000,
                dut_mv := demo_idle.initial_dut_mv, dut_ma := demo_idle.initial_dut_ma } },
          .OK, "TEST;RESULT=STARTED;".toList) :=
  ⟨rfl, (handle_TEST_START_idle sscanf_lf 10 demo_idle demo_start "1".toList "100".toList 1 100
    rfl (Or.inl rfl) sscanf_lf_one sscanf_lf_hundred one_ne_zero (by norm_num)).1⟩

/-- C2: on a `RUNNING` device, a well-formed `TEST` start request (three
arguments, `DURATION` and `RATE` scanning to non-zero numbers) is answered
`TEST;RESULT=ERROR;MSG=Already running;` and the device, with its state and
every session field, is returned as it was. -/
theorem handle_TEST_START_running (scan : List Char → Option ℚ) (now : ℚ) (app : app_t)
    (req : request_t) (dv rv : List Char) (d r : ℚ)
    (hrun : app.state = .RUNNING)
    (hargs : req.args = [("CMD".toList, "START".toList), ("DURATION".toList, dv),
          ("RATE".toList, rv)] ∨
      req.args = [("CMD".toList, "START".toList), ("RATE".toList, rv),
          ("DURATION".toList, dv)])
    (hd : scan dv = some d) (hr : scan rv = some r) (hd0 : d ≠ 0) (hr0 : r ≠ 0) :
    handle_TEST_START scan now app req =
        (app, .OK, "TEST;RESULT=ERROR;MSG=Already running;".toList) ∧
      handle_TEST scan now app req =
        (app, .OK, "TEST;RESULT=ERROR;MSG=Already running;".toList) := by
  rcases hargs with h | h <;>
    simp [handle_TEST, handle_TEST_START, handle_TEST_START_arg, request_t.nargs,
      request_t.argkeys, request_t.argvals, h, hd, hr, hd0, hr0, hrun, Except.bind,
      format_reply]

/-- C2 at `TEST;CMD=START;DURATION=1;RATE=100;` on a device already in a session. -/
theorem handle_TEST_START_running_witness :
    demo_running.state = .RUNNING ∧
      handle_TEST_START sscanf_lf 12 demo_running demo_start =
        (demo_running, .OK, "TEST;RESULT=ERROR;MSG=Already running;".toList) :=
  ⟨rfl, (handle_TEST_START_running sscanf_lf 12 demo_running demo_start "1".toList
    "100".toList 1 100 rfl (Or.inl rfl) sscanf_lf_one sscanf_lf_hundred one_ne_zero
    (by norm_num)).1⟩

/-- C3: for a `TEST` request whose first argument is `CMD=STOP`: a `RUNNING`
device answers `TEST;RESULT=STOPPED;`, becomes `IDLE` and has every session
field set to zero; an `IDLE` device answers
`TEST;RESULT=ERROR;MSG=No test was running;` and is unchanged. -/
theorem handle_TEST_stop (scan : List Char → Option ℚ) (now : ℚ) (app : app_t)
    (req : request_t) (rest : List (List Char × List Char))
    (hargs : req.args = ("CMD".toList, "STOP".toList) :: rest) :
    (app.state = .RUNNING →
        handle_TEST scan now app req =
          ({ app with
              state := .IDLE
              test :=
                { t0 := 0, duration_s := 0, rate_ms := 0, next_update_s := 0, dut_mv := 0,
                  dut_ma := 0 } },
            .OK, "TEST;RESULT=STOPPED;".toList)) ∧
      (app.state = .IDLE →
        handle_TEST scan now app req =
          (app, .OK, "TEST;RESULT=ERROR;MSG=No test was running;".toList)) := by
  constructor <;> intro hs <;>
    simp [handle_TEST, handle_TEST_STOP, request_t.nargs, request_t.argkeys,
      request_t.argvals, hargs, hs, format_reply]

/-- C3 at `TEST;CMD=STOP;`, on a device in a session and on a fresh one. -/
theorem handle_TEST_stop_witness :
    handle_TEST sscanf_lf 12 demo_running demo_stop =
        ({ demo_running with
            state := .IDLE
            test :=
              { t0 := 0, duration_s := 0, rate_ms := 0, next_update_s := 0, dut_mv := 0,
                dut_ma := 0 } },
          .OK, "TEST;RESULT=STOPPED;".toList) ∧
      handle_TEST sscanf_lf 12 demo_idle demo_stop =
        (demo_idle, .OK, "TEST;RESULT=ERROR;MSG=No test was running;".toList) :=
  ⟨(handle_TEST_stop sscanf_lf 12 demo_running demo_stop [] rfl).1 rfl,
    (handle_TEST_stop sscanf_lf 12 demo_idle demo_stop [] rfl).2 rfl⟩

/-- C4 fails on the code at a model string of 300 characters: the reply to
`ID;`, on the multicast and on the unicast socket, is the text
`ID;MODEL=<model>;SERIAL=SN0123456;` of 327 characters, which with its
terminator needs 328 bytes; `response` has `MAXREPLYSZ`, 256, so `vsprintf`
writes past the end of the array. -/
theorem handle_message_ID_overruns_response :
    (handle_message sscanf_lf 12 demo_long_model demo_client "ID;".toList
        (supported_commands true)).2.2 =
        [(demo_client, "ID;MODEL=".toList ++ List.replicate 300 'A' ++
          ";SERIAL=SN0123456;".toList)] ∧
      (handle_message sscanf_lf 12 demo_long_model demo_client "ID;".toList
        (supported_commands false)).2.2 =
        [(demo_client, "ID;MODEL=".toList ++ List.replicate 300 'A' ++
          ";SERIAL=SN0123456;".toList)] ∧
      ("ID;MODEL=".toList ++ List.replicate 300 'A' ++ ";SERIAL=SN0123456;".toList).length + 1 =
        328 ∧
      ¬response_fits
        ("ID;MODEL=".toList ++ List.replicate 300 'A' ++ ";SERIAL=SN0123456;".toList) := by
  have hlen : ("ID;MODEL=".toList ++ List.replicate 300 'A' ++
      ";SERIAL=SN0123456;".toList).length = 327 := by
    rw [List.length_append, List.length_append, List.length_replicate]
    rfl
  have hsock : ∀ mcast : Bool,
      (handle_message sscanf_lf 12 demo_long_model demo_client "ID;".toList
        (supported_commands mcast)).2.2 =
        [(demo_client, "ID;MODEL=".toList ++ List.replicate 300 'A' ++
          ";SERIAL=SN0123456;".toList)] := by
    intro mcast
    rw [handle_message_parse_some sscanf_lf 12 demo_long_model demo_client "ID;".toList _
      { cmd := .ID, args := [] } (by decide)]
    have hsw : handle_message_switch sscanf_lf 12
        { demo_long_model with subscriber := demo_client } { cmd := .ID, args := [] }
        (supported_commands mcast) =
        handle_ID { demo_long_model with subscriber := demo_client }
          { cmd := .ID, args := [] } := by
      cases mcast <;> simp [handle_message_switch, supported_commands, command_t.val]
    rw [hsw]
    have hid : handle_ID { demo_long_model with subscriber := demo_client }
        { cmd := .ID, args := [] } =
        ({ demo_long_model with subscriber := demo_client }, .OK,
          "ID;MODEL=".toList ++ List.replicate 300 'A' ++ ";SERIAL=".toList ++
            "SN0123456".toList ++ ";".toList) := by
      rfl
    rw [hid]
    simp only [if_pos, List.append_assoc]
    rfl
  refine ⟨hsock true, hsock false, by rw [hlen], ?_⟩
  unfold response_fits MAXREPLYSZ
  rw [hlen]
  decide

/-! ## C5: the limit of four pairs -/

/-- C8: a tick on an `IDLE` device sends nothing and returns the device as it
was; a `TEST` stop and a duration timeout both leave the device `IDLE`; and
from an `IDLE` device, along any sequence of handled datagrams and ticks in
which no reply is `TEST;RESULT=STARTED;`, the device stays `IDLE` and every
tick sends nothing. -/
theorem tick_idle_silent (scan : List Char → Option ℚ) :
    (∀ (now : ℚ) (app : app_t), app.state = .IDLE →
        mainloop_run_outgoing now app = (app, .OK, [])) ∧
      (∀ (app : app_t) (req : request_t), app.state = .RUNNING →
        (handle_TEST_STOP app req).1.state = .IDLE) ∧
      (∀ (now : ℚ) (app : app_t), app.state = .RUNNING →
        app.test.duration_s < max 0 (now - app.test.t0) →
        (mainloop_run_outgoing now app).1.state = .IDLE) ∧
      (∀ (app : app_t) (evs : List event_t), app.state = .IDLE →
        (∀ e ∈ trace scan app evs, ∀ d ∈ e.2, d.2 ≠ "TEST;RESULT=STARTED;".toList) →
        (final scan app evs).state = .IDLE ∧
          ∀ e ∈ trace scan app evs, ∀ now, e.1 = .tick now → e.2 = []) := by
  refine ⟨mainloop_run_outgoing_idle, ?_, ?_, fun app evs => trace_idle scan evs app⟩
  · intro app req hrun
    simp [handle_TEST_STOP, hrun]
  · intro now app hrun hto
    obtain ⟨v, a, nx, hdev, _, _⟩ := mainloop_run_outgoing_running now app hrun
    rw [hdev]
    simp [hto]

/-- C8 on a fresh device: one tick, and then a sequence of a refused stop
request and two ticks. -/
theorem tick_idle_silent_witness :
    mainloop_run_outgoing 12 demo_idle = (demo_idle, .OK, []) ∧
      ∀ e ∈ trace sscanf_lf demo_idle
          [.rx false ⟨demo_client, "TEST;CMD=STOP;".toList, 11⟩, .tick 12, .tick 13],
        ∀ now, e.1 = .tick now → e.2 = [] :=
  ⟨(tick_idle_silent sscanf_lf).1 12 demo_idle rfl,
    ((tick_idle_silent sscanf_lf).2.2.2 demo_idle
      [.rx false ⟨demo_client, "TEST;CMD=STOP;".toList, 11⟩, .tick 12, .tick 13] rfl
      (by decide)).2⟩

/-- C11, as the code has it: `parse_command` fails exactly when the buffer has
no token at all, or its command token is `ID` or `TEST`, the first four
argument tokens are key/value pairs and a fifth argument token follows,
whatever its form.  So every buffer with a token and at most four argument
tokens parses; and an argument token without `=` among the first four ends
the parse with the pairs before it kept and the tokens after it ignored. -/
theorem parse_command_fails_iff (buf : List Char) :
    (parse_command buf = none ↔
        datagram_tokens buf = [] ∨
          ∃ name args, datagram_tokens buf = name :: args ∧
            (name = "ID".toList ∨ name = "TEST".toList) ∧ 4 < args.length ∧
            ∀ t ∈ args.take 4, split_pair t ≠ none) ∧
      (∀ name args, datagram_tokens buf = name :: args → args.length ≤ 4 →
        parse_command buf ≠ none) ∧
      (∀ name cmd pre t post ps, datagram_tokens buf = name :: (pre ++ t :: post) →
        (name = "ID".toList ∧ cmd = .ID) ∨ (name = "TEST".toList ∧ cmd = .TEST) →
        pre.map split_pair = ps.map some → pre.length < 4 → '=' ∉ t →
        parse_command buf = some ⟨cmd, ps⟩) := by
  have hiff : parse_command buf = none ↔
      datagram_tokens buf = [] ∨
        ∃ name args, datagram_tokens buf = name :: args ∧
          (name = "ID".toList ∨ name = "TEST".toList) ∧ 4 < args.length ∧
          ∀ t ∈ args.take 4, split_pair t ≠ none := by
    rw [parse_command_tokens]
    cases htok : datagram_tokens buf with
    | nil => simp
    | cons name args =>
      have hpt := parse_tokens_none_iff args []
      simp only [List.length_nil, Nat.sub_zero, MAXKVPAIRS] at hpt
      by_cases hid : name = "ID".toList
      · simp only [if_pos hid, Option.map_eq_none', hpt]
        constructor
        · intro h
          exact Or.inr ⟨name, args, rfl, Or.inl hid, h.1, h.2⟩
        · rintro (h | ⟨n, a, heq, _, h1, h2⟩)
          · cases h
          · cases heq
            exact ⟨h1, h2⟩
      · by_cases htest : name = "TEST".toList
        · simp only [if_neg hid, if_pos htest, Option.map_eq_none', hpt]
          constructor
          · intro h
            exact Or.inr ⟨name, args, rfl, Or.inr htest, h.1, h.2⟩
          · rintro (h | ⟨n, a, heq, _, h1, h2⟩)
            · cases h
            · cases heq
              exact ⟨h1, h2⟩
        · simp only [if_neg hid, if_neg htest]
          constructor
          · intro h
            cases h
          · rintro (h | ⟨n, a, heq, hn, _, _⟩)
            · cases h
            · cases heq
              rcases hn with h | h
              · exact absurd h hid
              · exact absurd h htest
  refine ⟨hiff, ?_, ?_⟩
  · intro name args htok hlen hnone
    rcases hiff.mp hnone with h | ⟨n, a, heq, _, h1, _⟩
    · rw [htok] at h
      cases h
    · rw [htok] at heq
      cases heq
      omega
  · intro name cmd pre t post ps htok hname hps hlen ht
    have hstop := parse_tokens_stop t post (split_pair_no_eq t ht) pre ps [] hps
      (by simp only [List.length_nil, MAXKVPAIRS]; omega)
    rw [parse_command_tokens, htok]
    simp only [hstop, List.nil_append, Option.map_some']
    rcases hname with h | h
    · rw [if_pos h.1, h.2]
    · have hne : name ≠ "ID".toList := by rw [h.1]; decide
      rw [if_neg hne, if_pos h.1, h.2]

/-- C11 at `ID;a=1;junk;b=2;`: the token `junk` ends the parse, one pair is kept. -/
theorem parse_command_fails_iff_witness :
    parse_command "ID;a=1;junk;b=2;".toList = some ⟨.ID, [("a".toList, "1".toList)]⟩ :=
  (parse_command_fails_iff "ID;a=1;junk;b=2;".toList).2.2 "ID".toList .ID ["a=1".toList]
    "junk".toList ["b=2".toList] [("a".toList, "1".toList)] (by decide) (Or.inl ⟨rfl, rfl⟩)
    (by decide) (by decide) (by decide)

/-- C11 as stated fails at `ID;a=1;b=2;c=3;d=4;junk`: the buffer has a command
token and exactly four key/value pairs, the sixth token has no `=`, and
`parse_command` fails. -/
theorem parse_command_four_pairs_junk :
    datagram_tokens "ID;a=1;b=2;c=3;d=4;junk".toList =
        ["ID".toList, "a=1".toList, "b=2".toList, "c=3".toList, "d=4".toList, "junk".toList] ∧
      split_pair "junk".toList = none ∧
      parse_command "ID;a=1;b=2;c=3;d=4;junk".toList = none := by
  decide

/-! ## C12 to C14: reply size, idle sessions, jitter -/

/-- C12 fails on the code: with a model string of 300 characters the reply to
`ID;` that `format_reply` renders is 327 bytes long, more than `MAXREPLYSZ`. -/
theorem handle_message_ID_reply_too_long :
    ∃ reply : List Char,
      (handle_message sscanf_lf 12 demo_long_model demo_client "ID;".toList
        (supported_commands false)).2.2 = [(demo_client, reply)] ∧
      reply.length = 327 ∧ MAXREPLYSZ < reply.length := by
  rw [handle_message_parse_some sscanf_lf 12 demo_long_model demo_client "ID;".toList _
    { cmd := .ID, args := [] } (by decide)]
  have hsw : handle_message_switch sscanf_lf 12 { demo_long_model with subscriber := demo_client }
      { cmd := .ID, args := [] } (supported_commands false) =
      handle_ID { demo_long_model with subscriber := demo_client } { cmd := .ID, args := [] } := by
    simp [handle_message_switch, supported_commands, command_t.val]
  rw [hsw]
  refine ⟨_, rfl, ?_⟩
  have hlen := handle_ID_reply_length { demo_long_model with subscriber := demo_client }
    { cmd := .ID, args := [] } rfl
  have hm : ({ demo_long_model with subscriber := demo_client } : app_t).modelnum.length =
      300 := List.length_replicate 300 'A'
  have hs : ({ demo_long_model with subscriber := demo_client } : app_t).serialnum.length =
      9 := rfl
  rw [hm, hs] at hlen
  rw [hlen]
  exact ⟨rfl, by decide⟩

/-- C13 fails on the code: a fresh device handles
`TEST;CMD=START;DURATION=1;RATE=100;` at time 10 and ticks at time 12; the
duration timeout leaves it `IDLE` with start time, duration, rate, deadline,
voltage and current still set, whereas a `TEST` stop leaves all six at zero. -/
theorem timeout_keeps_session_fields :
    (final sscanf_lf demo_idle
        [.rx false ⟨demo_client, "TEST;CMD=START;DURATION=1;RATE=100;".toList, 10⟩,
          .tick 12]).state = .IDLE ∧
      (final sscanf_lf demo_idle
        [.rx false ⟨demo_client, "TEST;CMD=START;DURATION=1;RATE=100;".toList, 10⟩,
          .tick 12]).test =
        { t0 := 10, duration_s := 1, rate_ms := 100, next_update_s := 51 / 5, dut_mv := 4500,
          dut_ma := 100 } ∧
      (handle_TEST_STOP demo_running demo_stop).1.test =
        { t0 := 0, duration_s := 0, rate_ms := 0, next_update_s := 0, dut_mv := 0,
          dut_ma := 0 } := by
  simp only [final, step, mainloop_run_rx, handle_message_start_demo]
  refine ⟨?_, ?_, ?_⟩
  · norm_num [mainloop_run_outgoing, mainloop_run_status, mainloop_run_jitter, send_message,
      demo_idle, mainloop_init, demo_cfg, format_reply]
  · norm_num [mainloop_run_outgoing, mainloop_run_status, mainloop_run_jitter, send_message,
      demo_idle, mainloop_init, demo_cfg, format_reply]
  · simp [handle_TEST_STOP, demo_running]

/-- C14 fails on the code: 2200 seconds into a session the elapsed time in
microseconds is outside the range of `int`; with the converted value `INT_MIN`
the sub-second part is -0.483648, and one status update moves the voltage by
56.789 × (-0.983648) and the current by 123.45 × (-0.983648), more than half
the amplitude. -/
theorem jitter_overflow :
    (mainloop_run_outgoing 2200 demo_long_session).1.test.dut_mv -
        demo_long_session.test.dut_mv = 56.789 * (-0.983648) ∧
      (mainloop_run_outgoing 2200 demo_long_session).1.test.dut_ma -
        demo_long_session.test.dut_ma = 123.45 * (-0.983648) ∧
      (28.3945 : ℚ) < |(mainloop_run_outgoing 2200 demo_long_session).1.test.dut_mv -
        demo_long_session.test.dut_mv| ∧
      (61.725 : ℚ) < |(mainloop_run_outgoing 2200 demo_long_session).1.test.dut_ma -
        demo_long_session.test.dut_ma| := by
  have hcast : double_to_int (2200000000 : ℚ) = -2147483648 := by
    have := double_to_int_natCast 2200000000
    norm_num at this
    exact this
  have hmod : Int.tmod (-2147483648) 1000000 = -483648 := by decide
  have hmv : (mainloop_run_outgoing 2200 demo_long_session).1.test.dut_mv =
      4500 + 56.789 * (-0.983648) := by
    norm_num [mainloop_run_outgoing, mainloop_run_status, mainloop_run_jitter, send_message,
      demo_long_session, demo_idle, mainloop_init, demo_cfg, format_reply, hcast, hmod]
  have hma : (mainloop_run_outgoing 2200 demo_long_session).1.test.dut_ma =
      100 + 123.45 * (-0.983648) := by
    norm_num [mainloop_run_outgoing, mainloop_run_status, mainloop_run_jitter, send_message,
      demo_long_session, demo_idle, mainloop_init, demo_cfg, format_reply, hcast, hmod]
  have h0v : demo_long_session.test.dut_mv = 4500 := rfl
  have h0a : demo_long_session.test.dut_ma = 100 := rfl
  rw [hmv, hma, h0v, h0a]
  have hdv : (4500 : ℚ) + 56.789 * (-0.983648) - 4500 = -(1745637071 / 31250000) := by
    norm_num
  have hda : (100 : ℚ) + 123.45 * (-0.983648) - 100 = -(75894591 / 625000) := by
    norm_num
  refine ⟨by norm_num, by norm_num, ?_, ?_⟩
  · rw [hdv, abs_neg, abs_of_pos (by norm_num)]
    norm_num
  · rw [hda, abs_neg, abs_of_pos (by norm_num)]
    norm_num

/-! ## C15 to C17: validation of a start request -/

/-- C15: for a `TEST` request whose first argument is `CMD=START`, in any
device state: (1) with an argument count other than 3 the reply is
`TEST;RESULT=ERROR;MSG="CMD=START" expects DURATION and RATE;`; (2) otherwise
the first of the second and third arguments whose key is `DURATION` or `RATE`
and whose value does not scan gives `TEST;RESULT=ERROR;MSG=Could not parse
DURATION;` or `...RATE;`, naming that key; (3) otherwise the reply is
`TEST;RESULT=ERROR;MSG=Expected duration>0 and rate>0;` when the request gives
the keys `DURATION` and `RATE` one each, in either order, and the value of one
of them scans to zero, and also when one of the two keys is in neither place,
the number it would set being zero from the start.  In all three cases the
device is returned unchanged. -/
theorem handle_TEST_START_validation (scan : List Char → Option ℚ) (now : ℚ) (app : app_t)
    (req : request_t) (rest : List (List Char × List Char))
    (hargs : req.args = ("CMD".toList, "START".toList) :: rest) :
    (req.nargs ≠ 3 →
        handle_TEST scan now app req =
          (app, .OK,
            "TEST;RESULT=ERROR;MSG=\"CMD=START\" expects DURATION and RATE;".toList)) ∧
      (∀ k1 v1 k2 v2, rest = [(k1, v1), (k2, v2)] →
        (k1 = "DURATION".toList → scan v1 = none →
          handle_TEST scan now app req =
            (app, .OK, "TEST;RESULT=ERROR;MSG=Could not parse DURATION;".toList)) ∧
        (k1 = "RATE".toList → scan v1 = none →
          handle_TEST scan now app req =
            (app, .OK, "TEST;RESULT=ERROR;MSG=Could not parse RATE;".toList)) ∧
        (¬((k1 = "DURATION".toList ∨ k1 = "RATE".toList) ∧ scan v1 = none) →
          k2 = "DURATION".toList → scan v2 = none →
          handle_TEST scan now app req =
            (app, .OK, "TEST;RESULT=ERROR;MSG=Could not parse DURATION;".toList)) ∧
        (¬((k1 = "DURATION".toList ∨ k1 = "RATE".toList) ∧ scan v1 = none) →
          k2 = "RATE".toList → scan v2 = none →
          handle_TEST scan now app req =
            (app, .OK, "TEST;RESULT=ERROR;MSG=Could not parse RATE;".toList)) ∧
        (∀ d r : ℚ, k1 = "DURATION".toList → k2 = "RATE".toList →
          scan v1 = some d → scan v2 = some r → d = 0 ∨ r = 0 →
          handle_TEST scan now app req =
            (app, .OK, "TEST;RESULT=ERROR;MSG=Expected duration>0 and rate>0;".toList)) ∧
        (∀ d r : ℚ, k1 = "RATE".toList → k2 = "DURATION".toList →
          scan v1 = some r → scan v2 = some d → d = 0 ∨ r = 0 →
          handle_TEST scan now app req =
            (app, .OK, "TEST;RESULT=ERROR;MSG=Expected duration>0 and rate>0;".toList)) ∧
        (¬((k1 = "DURATION".toList ∨ k1 = "RATE".toList) ∧ scan v1 = none) →
          ¬((k2 = "DURATION".toList ∨ k2 = "RATE".toList) ∧ scan v2 = none) →
          (k1 ≠ "DURATION".toList ∧ k2 ≠ "DURATION".toList) ∨
            (k1 ≠ "RATE".toList ∧ k2 ≠ "RATE".toList) →
          handle_TEST scan now app req =
            (app, .OK, "TEST;RESULT=ERROR;MSG=Expected duration>0 and rate>0;".toList))) := by
  rw [handle_TEST_start_eq scan now app req rest hargs]
  constructor
  · intro hn
    simp [handle_TEST_START, hn, format_reply]
  · intro k1 v1 k2 v2 hrest
    subst hrest
    have hn : req.nargs = 3 := by simp [request_t.nargs, hargs]
    have hk1 : req.argkeys 1 = k1 := by simp [request_t.argkeys, hargs]
    have hv1 : req.argvals 1 = v1 := by simp [request_t.argvals, hargs]
    have hk2 : req.argkeys 2 = k2 := by simp [request_t.argkeys, hargs]
    have hv2 : req.argvals 2 = v2 := by simp [request_t.argvals, hargs]
    have hDR : "RATE".toList ≠ "DURATION".toList := by decide
    refine ⟨?_, ?_, ?_, ?_, ?_, ?_, ?_⟩
    · intro h1 hs
      simp [handle_TEST_START, hn, handle_TEST_START_arg, hk1, hv1, h1, hs, Except.bind,
        format_reply]
    · intro h1 hs
      simp [handle_TEST_START, hn, handle_TEST_START_arg, hk1, hv1, h1, hs, Except.bind,
        format_reply]
    · intro hok h2 hs
      unfold handle_TEST_START
      rw [if_neg (by simp [hn])]
      obtain ⟨dr, hdr⟩ := handle_TEST_START_arg_passes scan req 1 (0, 0)
        (by rw [hk1, hv1]; exact hok)
      rw [hdr]
      simp [Except.bind, handle_TEST_START_arg, hk2, hv2, h2, hs, format_reply]
    · intro hok h2 hs
      unfold handle_TEST_START
      rw [if_neg (by simp [hn])]
      obtain ⟨dr, hdr⟩ := handle_TEST_START_arg_passes scan req 1 (0, 0)
        (by rw [hk1, hv1]; exact hok)
      rw [hdr]
      simp [Except.bind, handle_TEST_START_arg, hk2, hv2, h2, hs, format_reply, hDR]
    · intro d r h1 h2 hs1 hs2 hz
      have hchain : (handle_TEST_START_arg scan req 1 (0, 0)).bind
          (handle_TEST_START_arg scan req 2) = .ok (d, r) := by
        simp [handle_TEST_START_arg, hk1, hv1, hk2, hv2, h1, h2, hs1, hs2, Except.bind, hDR]
      unfold handle_TEST_START
      rw [if_neg (by simp [hn]), hchain]
      simp only [if_pos hz, format_reply]
    · intro d r h1 h2 hs1 hs2 hz
      have hchain : (handle_TEST_START_arg scan req 1 (0, 0)).bind
          (handle_TEST_START_arg scan req 2) = .ok (d, r) := by
        simp [handle_TEST_START_arg, hk1, hv1, hk2, hv2, h1, h2, hs1, hs2, Except.bind, hDR]
      unfold handle_TEST_START
      rw [if_neg (by simp [hn]), hchain]
      simp only [if_pos hz, format_reply]
    · intro hok1 hok2 hkeys
      obtain ⟨d, r, hchain, hd, hr⟩ := handle_TEST_START_loop_unset scan req
        (by rw [hk1, hv1]; exact hok1) (by rw [hk2, hv2]; exact hok2)
      rw [hk1, hk2] at hd hr
      have hz : d = 0 ∨ r = 0 := by
        rcases hkeys with h | h
        · exact Or.inl (hd h.1 h.2)
        · exact Or.inr (hr h.1 h.2)
      unfold handle_TEST_START
      rw [if_neg (by simp [hn]), hchain]
      simp only [if_pos hz, format_reply]

/-- C15 on a device in a session: `TEST;CMD=START;` is refused for its argument
count, `TEST;CMD=START;DURATION=abc;RATE=100;` for the duration that does not
scan, and `TEST;CMD=START;DURATION=0;RATE=100;` for the duration zero. -/
theorem handle_TEST_START_validation_witness :
    handle_TEST sscanf_lf 12 demo_running ⟨.TEST, [("CMD".toList, "START".toList)]⟩ =
        (demo_running, .OK,
          "TEST;RESULT=ERROR;MSG=\"CMD=START\" expects DURATION and RATE;".toList) ∧
      handle_TEST sscanf_lf 12 demo_running demo_start_bad =
        (demo_running, .OK, "TEST;RESULT=ERROR;MSG=Could not parse DURATION;".toList) ∧
      handle_TEST sscanf_lf 12 demo_running demo_start_zero =
        (demo_running, .OK, "TEST;RESULT=ERROR;MSG=Expected duration>0 and rate>0;".toList) :=
  ⟨(handle_TEST_START_validation sscanf_lf 12 demo_running
      ⟨.TEST, [("CMD".toList, "START".toList)]⟩ [] rfl).1 (by decide),
    ((handle_TEST_START_validation sscanf_lf 12 demo_running demo_start_bad
      [("DURATION".toList, "abc".toList), ("RATE".toList, "100".toList)] rfl).2
      "DURATION".toList "abc".toList "RATE".toList "100".toList rfl).1 rfl sscanf_lf_abc,
    ((handle_TEST_START_validation sscanf_lf 12 demo_running demo_start_zero
      [("DURATION".toList, "0".toList), ("RATE".toList, "100".toList)] rfl).2
      "DURATION".toList "0".toList "RATE".toList "100".toList rfl).2.2.2.2.1 0 100 rfl rfl
      sscanf_lf_zero sscanf_lf_hundred (Or.inl rfl)⟩

/-- C16: for a `TEST` request whose first argument is `CMD=START`, the reply
is `TEST;RESULT=STARTED;` only if the request has exactly 3 arguments and the
second and third carry the keys `DURATION` and `RATE`, one each, in either
order; any other request leaves the device as it was and is answered with
something else. -/
theorem handle_TEST_START_keys (scan : List Char → Option ℚ) (now : ℚ) (app : app_t)
    (req : request_t) (rest : List (List Char × List Char))
    (hargs : req.args = ("CMD".toList, "START".toList) :: rest) :
    ((handle_TEST scan now app req).2.2 = "TEST;RESULT=STARTED;".toList →
        req.nargs = 3 ∧
          ((req.argkeys 1 = "DURATION".toList ∧ req.argkeys 2 = "RATE".toList) ∨
            (req.argkeys 1 = "RATE".toList ∧ req.argkeys 2 = "DURATION".toList))) ∧
      (¬(req.nargs = 3 ∧
          ((req.argkeys 1 = "DURATION".toList ∧ req.argkeys 2 = "RATE".toList) ∨
            (req.argkeys 1 = "RATE".toList ∧ req.argkeys 2 = "DURATION".toList))) →
        (handle_TEST scan now app req).1 = app ∧
          (handle_TEST scan now app req).2.2 ≠ "TEST;RESULT=STARTED;".toList) := by
  rw [handle_TEST_start_eq scan now app req rest hargs]
  rcases handle_TEST_START_started_or_not scan now app req with h | h
  · exact ⟨fun _ => ⟨h.1, h.2.1⟩, fun hn => absurd ⟨h.1, h.2.1⟩ hn⟩
  · exact ⟨fun hs => absurd hs h.2, fun _ => h⟩

/-- C16 at `TEST;CMD=START;DURATION=1;DURATION=2;` on a fresh device: the
duplicated key does not start a session. -/
theorem handle_TEST_START_keys_witness :
    (handle_TEST sscanf_lf 12 demo_idle ⟨.TEST, demo_pairs_dup⟩).1 = demo_idle ∧
      (handle_TEST sscanf_lf 12 demo_idle ⟨.TEST, demo_pairs_dup⟩).2.2 ≠
        "TEST;RESULT=STARTED;".toList :=
  (handle_TEST_START_keys sscanf_lf 12 demo_idle ⟨.TEST, demo_pairs_dup⟩
    [("DURATION".toList, "1".toList), ("DURATION".toList, "2".toList)] rfl).2 (by decide)

/-- C17 fails on the code: a fresh device answers
`TEST;CMD=START;DURATION=-1;RATE=-100;` with `TEST;RESULT=STARTED;` and is
`RUNNING` with duration -1 and rate -100. -/
theorem handle_message_negative_start :
    handle_message sscanf_lf 10 demo_idle demo_client
        "TEST;CMD=START;DURATION=-1;RATE=-100;".toList (supported_commands false) =
      ({ demo_idle with
          state := .RUNNING
          test :=
            { t0 := 10, duration_s := -1, rate_ms := -100, next_update_s := 10 + -100 / 1000,
              dut_mv := 4500, dut_ma := 100 }
          subscriber := demo_client },
        .OK, [(demo_client, "TEST;RESULT=STARTED;".toList)]) := by
  rw [handle_message_parse_some sscanf_lf 10 demo_idle demo_client _ _
    { cmd := .TEST
      args := [("CMD".toList, "START".toList), ("DURATION".toList, "-1".toList),
        ("RATE".toList, "-100".toList)] } (by decide)]
  have h1 : sscanf_lf ['-', '1'] = some (-1) := sscanf_lf_minus_one
  have h2 : sscanf_lf ['-', '1', '0', '0'] = some (-100) := sscanf_lf_minus_hundred
  simp [handle_message_switch, supported_commands, command_t.val, handle_TEST,
    handle_TEST_START, handle_TEST_START_arg, request_t.nargs, request_t.argkeys,
    request_t.argvals, Except.bind, format_reply, h1, h2, demo_idle,
    mainloop_init, demo_cfg]

/-! ## C18 and C19: order of the arguments, value of a pair -/

/-- C18: for the command name `ID` or `TEST` and at most four pairs of
non-empty keys and values (C strings free of `;` and `=`), `parse_command` on
`C;k1=v1;...;kn=vn;` succeeds with the matching command kind, `nargs = n` and
the i-th key and value equal to `(ki, vi)`; nothing is asked of the keys being
distinct. -/
theorem parse_command_keeps_order (name : List Char) (cmd : command_t)
    (ps : List (List Char × List Char))
    (hname : (name = "ID".toList ∧ cmd = .ID) ∨ (name = "TEST".toList ∧ cmd = .TEST))
    (hwf : ∀ p ∈ ps, wf_field p.1 ∧ wf_field p.2) (hlen : ps.length ≤ 4) :
    parse_command (render_request name ps) = some ⟨cmd, ps⟩ ∧
      request_t.nargs ⟨cmd, ps⟩ = ps.length ∧
      ∀ (i : Nat) (hi : i < ps.length),
        (request_t.argkeys ⟨cmd, ps⟩ i, request_t.argvals ⟨cmd, ps⟩ i) = ps.get ⟨i, hi⟩ := by
  refine ⟨?_, rfl, ?_⟩
  · rw [parse_command_render name cmd ps hname hwf, if_pos (by unfold MAXKVPAIRS; omega)]
  · intro i hi
    simp only [request_t.argkeys, request_t.argvals, List.get?_eq_getElem?,
      List.getElem?_eq_getElem hi, List.get_eq_getElem]

/-- C18 at `TEST;CMD=START;DURATION=1;DURATION=2;`: both `DURATION` pairs are kept. -/
theorem parse_command_keeps_order_witness :
    parse_command (render_request "TEST".toList demo_pairs_dup) =
      some ⟨.TEST, demo_pairs_dup⟩ :=
  (parse_command_keeps_order "TEST".toList .TEST demo_pairs_dup (Or.inr ⟨rfl, rfl⟩)
    (by unfold wf_field; decide) (by decide)).1

/-- C19, as the code has it: an argument token `k=v` (`k` non-empty, free of
`=` and `;`) is split at its first `=` into the key `k` and, as value, the
first token `strtok_r` finds in `v` with the delimiter `=`.  So when `v` is
non-empty and free of `=` the pair is `(k, v)`; when `v` is `v1=rest` with
`v1` non-empty and free of `=`, the value is `v1` only. -/
theorem parse_command_value_split (name : List Char) (cmd : command_t) (k v : List Char)
    (hname : (name = "ID".toList ∧ cmd = .ID) ∨ (name = "TEST".toList ∧ cmd = .TEST))
    (hk : k ≠ []) (hke : '=' ∉ k) (hks : ';' ∉ k) (hkn : Char.ofNat 0 ∉ k)
    (hvs : ';' ∉ v) (hvn : Char.ofNat 0 ∉ v) :
    split_pair (k ++ '=' :: v) = (strtok_r v ['=']).map (fun r => (k, r.1)) ∧
      (v ≠ [] → '=' ∉ v →
        split_pair (k ++ '=' :: v) = some (k, v) ∧
          parse_command (name ++ ';' :: ((k ++ '=' :: v) ++ [';'])) = some ⟨cmd, [(k, v)]⟩) ∧
      (∀ v1 rest, v = v1 ++ '=' :: rest → v1 ≠ [] → '=' ∉ v1 →
        split_pair (k ++ '=' :: v) = some (k, v1) ∧
          parse_command (name ++ ';' :: ((k ++ '=' :: v) ++ [';'])) =
            some ⟨cmd, [(k, v1)]⟩) := by
  have hsingle := parse_command_single name cmd (k ++ '=' :: v) hname (by simp)
    (by
      have h3 : ';' ≠ '=' := by decide
      simp only [List.mem_append, List.mem_cons, not_or]
      exact ⟨hks, h3, hvs⟩)
    (by
      have h3 : Char.ofNat 0 ≠ '=' := by decide
      simp only [List.mem_append, List.mem_cons, not_or]
      exact ⟨hkn, h3, hvn⟩)
  refine ⟨split_pair_key k v hk hke, ?_, ?_⟩
  · intro hv hve
    have hsp := split_pair_simple k v hk hke hv hve
    refine ⟨hsp, ?_⟩
    rw [hsingle, hsp]
  · intro v1 rest hveq hv1 hv1e
    have hsp : split_pair (k ++ '=' :: v) = some (k, v1) := by
      rw [hveq]
      exact split_pair_second_eq k v1 rest hk hke hv1 hv1e
    refine ⟨hsp, ?_⟩
    rw [hsingle, hsp]

/-- C19 at `ID;a=b=c;`, through the general statement. -/
theorem parse_command_value_split_witness :
    parse_command ("ID".toList ++ ';' :: (("a".toList ++ '=' :: "b=c".toList) ++ [';'])) =
      some ⟨.ID, [("a".toList, "b".toList)]⟩ :=
  ((parse_command_value_split "ID".toList .ID "a".toList "b=c".toList (Or.inl ⟨rfl, rfl⟩)
    (by decide) (by decide) (by decide) (by decide) (by decide) (by decide)).2.2
    "b".toList "c".toList (by decide) (by decide) (by decide)).2

/-- C19 as stated fails at `ID;a=b=c;`: the token `a=b=c` has the value `b=c`
after its first `=`, and the parsed value is `b`. -/
theorem parse_command_value_with_eq :
    parse_command "ID;a=b=c;".toList = some ⟨.ID, [("a".toList, "b".toList)]⟩ ∧
      ("a".toList, "b".toList) ≠ ("a".toList, "b=c".toList) := by
  decide

/-! ## C20: the subscriber -/

/-- C21 fails on the code: a fresh device answers
`TEST;CMD=START;DURATION=1;RATE=-100;` at time 10 with a session whose deadline
is 9.9; the tick at time 10.05 is past the deadline, does the update and
leaves the device `RUNNING` with the deadline 9.8: the deadline has moved
back by 100 ms. -/
theorem negative_rate_deadline_moves_back :
    (final sscanf_lf demo_idle
        [.rx false ⟨demo_client, "TEST;CMD=START;DURATION=1;RATE=-100;".toList, 10⟩]).state =
        .RUNNING ∧
      (final sscanf_lf demo_idle
        [.rx false ⟨demo_client, "TEST;CMD=START;DURATION=1;RATE=-100;".toList, 10⟩]
        ).test.next_update_s = 99 / 10 ∧
      (final sscanf_lf demo_idle
        [.rx false ⟨demo_client, "TEST;CMD=START;DURATION=1;RATE=-100;".toList, 10⟩,
          .tick (201 / 20)]).state = .RUNNING ∧
      (final sscanf_lf demo_idle
        [.rx false ⟨demo_client, "TEST;CMD=START;DURATION=1;RATE=-100;".toList, 10⟩,
          .tick (201 / 20)]).test.next_update_s = 49 / 5 ∧
      (final sscanf_lf demo_idle
        [.rx false ⟨demo_client, "TEST;CMD=START;DURATION=1;RATE=-100;".toList, 10⟩,
          .tick (201 / 20)]).test.next_update_s <
        (final sscanf_lf demo_idle
          [.rx false ⟨demo_client, "TEST;CMD=START;DURATION=1;RATE=-100;".toList, 10⟩]
          ).test.next_update_s := by
  simp only [final, step, mainloop_run_rx, handle_message_start_negative_rate]
  have hst : (mainloop_run_outgoing (201 / 20)
      { demo_idle with
          state := .RUNNING
          test :=
            { t0 := 10, duration_s := 1, rate_ms := -100, next_update_s := 99 / 10,
              dut_mv := 4500, dut_ma := 100 }
          subscriber := demo_client }).1.state = .RUNNING := by
    norm_num [mainloop_run_outgoing, mainloop_run_status, mainloop_run_jitter, send_message,
      demo_idle, mainloop_init, demo_cfg, format_reply]
  have hnx : (mainloop_run_outgoing (201 / 20)
      { demo_idle with
          state := .RUNNING
          test :=
            { t0 := 10, duration_s := 1, rate_ms := -100, next_update_s := 99 / 10,
              dut_mv := 4500, dut_ma := 100 }
          subscriber := demo_client }).1.test.next_update_s = 49 / 5 := by
    norm_num [mainloop_run_outgoing, mainloop_run_status, mainloop_run_jitter, send_message,
      demo_idle, mainloop_init, demo_cfg, format_reply]
  refine ⟨trivial, trivial, hst, hnx, ?_⟩
  rw [hnx]
  norm_num

end DeviceSim
